import Mathlib

/-!
Shallow embedding of the dnd-map-generator deterministic generation pipeline.

Numbers are modelled as exact rationals (`ℚ`); JavaScript's 32-bit integer
operations in the seeded PRNG are modelled exactly as naturals mod 2^32.
Transcendental primitives (`Math.sqrt`, `Math.cos`, `Math.sin`, `Math.atan2`,
`Math.exp`) are platform approximation functions; they are passed explicitly
as a `JSMath` record of rational-valued functions, fixed for a whole run.
The third-party `simplex-noise` library (`createNoise2D`) is not part of this
repository; per the spec (§4.2) it yields a deterministic, seed-derived noise
field with values in [-1,1]; noise fields are passed explicitly as functions,
one per construction site (per-cell construction sites become families
indexed by cell).

Grids are dense row-major `List ℚ` (resp. `List ℕ` for biome ids), exactly as
the `Float32Array`/`Uint8Array` grids of the source.
-/

namespace MapGen

/-! ## Seeded PRNG (`src/utils/random.ts`, `SeededRandom`) -/

/-- 2^32, the modulus of all JS 32-bit bit-pattern arithmetic. -/
def two32 : ℕ := 4294967296

/-- Reduce to a 32-bit bit pattern (JS `>>> 0` / implicit 32-bit coercion). -/
def m32 (n : ℕ) : ℕ := n % two32

/-- JS `Math.imul`: 32-bit multiply, viewed on bit patterns. -/
def imul (a b : ℕ) : ℕ := m32 (a * b)

/-- JS `^` on 32-bit patterns. -/
def jsXor (a b : ℕ) : ℕ := Nat.xor a b

/-- JS `<< 23` on a 32-bit pattern. -/
def shl23 (a : ℕ) : ℕ := m32 (a * 8388608)

/-- PRNG state: the two 32-bit words of xorshift128+, stored as bit patterns. -/
structure SR where
  s0 : ℕ
  s1 : ℕ
  deriving DecidableEq, Repr

/-- `SeededRandom` constructor: fold the seed string's char codes into two
32-bit words by multiplicative hashing. -/
def SR.fromString (seed : String) : SR :=
  let p := seed.toList.foldl
    (fun (h : ℕ × ℕ) ch =>
      (imul (jsXor h.1 ch.toNat) 0x85ebca77, imul (jsXor h.2 ch.toNat) 0xc2b2ae3d))
    (0xdeadbeef, 0x41c6ce57)
  let h1 := p.1
  let h2 := p.2
  let h1 := jsXor h1 (imul (jsXor h1 (h2 / 32768)) 0x735a2d97)
  let h2 := jsXor h2 (imul (jsXor h2 (h1 / 32768)) 0xcaf649a9)
  let h1 := jsXor h1 (h2 / 65536)
  let h2 := jsXor h2 (h1 / 65536)
  ⟨h1, h2⟩

/-- `next()`: xorshift128+ step; returns a rational in [0,1) and the new state. -/
def SR.next (r : SR) : ℚ × SR :=
  let a0 := r.s0
  let b := r.s1
  let a1 := jsXor a0 (shl23 a0)
  let a2 := jsXor a1 (a1 / 131072)
  let a3 := jsXor a2 b
  let a4 := jsXor a3 (b / 67108864)
  (((((b + a4) % two32 : ℕ) : ℚ) / 4294967296), ⟨b, a4⟩)

/-- `range(min,max)`: `min + next() * (max - min)`. -/
def SR.range (r : SR) (mn mx : ℚ) : ℚ × SR :=
  let (n, r') := r.next
  (mn + n * (mx - mn), r')

/-- `int(min,max)`: `Math.floor(range(min, max+1))`. -/
def SR.int (r : SR) (mn mx : ℚ) : ℤ × SR :=
  let (v, r') := r.range mn (mx + 1)
  (⌊v⌋, r')

/-- `pick(array)`: element at `int(0, length-1)` (default if out of range). -/
def SR.pick (r : SR) (l : List α) (dflt : α) : α × SR :=
  let (i, r') := r.int 0 ((l.length : ℚ) - 1)
  (l.getD i.toNat dflt, r')

/-- Swap two positions of a list (both must be in range, else unchanged). -/
def listSwap (l : List α) (i j : ℕ) : List α :=
  match l.get? i, l.get? j with
  | some a, some b => (l.set i b).set j a
  | _, _ => l

/-- `shuffle(array)`: in-place Fisher–Yates, `i` from `length-1` down to `1`. -/
def SR.shuffle (r : SR) (l : List α) : List α × SR :=
  ((List.range l.length).drop 1).reverse.foldl
    (fun (st : List α × SR) (i : ℕ) =>
      let (j, r') := st.2.int 0 (i : ℚ)
      (listSwap st.1 i j.toNat, r'))
    (l, r)

/-- Hex digit for a value in [0,15]. -/
def hexDigit (n : ℕ) : Char := ("0123456789abcdef".toList).getD n '0'

/-- `uuid()`: fill the `xxxxxxxx-xxxx-4xxx-yxxx-xxxxxxxxxxxx` template. -/
def SR.uuid (r : SR) : String × SR :=
  let step := fun (st : List Char × SR) (c : Char) =>
    if c = 'x' then
      let (n, r') := st.2.next
      (st.1 ++ [hexDigit (⌊n * 16⌋).toNat], r')
    else if c = 'y' then
      let (n, r') := st.2.next
      (st.1 ++ [hexDigit ((⌊n * 16⌋).toNat % 4 + 8)], r')
    else
      (st.1 ++ [c], st.2)
  let (cs, r') := ("xxxxxxxx-xxxx-4xxx-yxxx-xxxxxxxxxxxx".toList).foldl step ([], r)
  (String.mk cs, r')

/-! ## Math utilities (`src/utils/math.ts`) -/

/-- `clamp(value, min, max)`. -/
def clampQ (v mn mx : ℚ) : ℚ := min (max v mn) mx

/-- `smootherstep(edge0, edge1, x)` (Perlin quintic). -/
def smootherstepQ (e0 e1 x : ℚ) : ℚ :=
  let t := clampQ ((x - e0) / (e1 - e0)) 0 1
  t * t * t * (t * (t * 6 - 15) + 10)

/-- `coordToIndex(x, y, width)` = `y * width + x`. -/
def coordToIndex (x y w : ℕ) : ℕ := y * w + x

/-- A dense row-major rational grid (`Float32Array` in the source). -/
abbrev Grid := List ℚ

/-- Read a grid cell (guarded accesses only in the source). -/
def gget (g : Grid) (i : ℕ) : ℚ := g.getD i 0

/-- Platform approximation functions for JS `Math` transcendentals, as
rational-valued functions fixed for a whole run. -/
structure JSMath where
  sqrt : ℚ → ℚ
  cos : ℚ → ℚ
  sin : ℚ → ℚ
  atan2 : ℚ → ℚ → ℚ
  exp : ℚ → ℚ

/-- `Math.PI`, the IEEE double closest to π, as an exact rational. -/
def jsPI : ℚ := 884279719003555 / 281474976710656

/-- `distance(x1,y1,x2,y2)`: Euclidean distance via the platform sqrt. -/
def distanceQ (M : JSMath) (x1 y1 x2 y2 : ℚ) : ℚ :=
  M.sqrt ((x2 - x1) * (x2 - x1) + (y2 - y1) * (y2 - y1))

/-- `gradient(data, x, y, width, height)`: central differences with edge
replication. -/
def gradientQ (g : Grid) (x y w h : ℕ) : ℚ × ℚ :=
  let l := if x > 0 then gget g (coordToIndex (x - 1) y w) else gget g (coordToIndex x y w)
  let r := if x < w - 1 then gget g (coordToIndex (x + 1) y w) else gget g (coordToIndex x y w)
  let u := if y > 0 then gget g (coordToIndex x (y - 1) w) else gget g (coordToIndex x y w)
  let d := if y < h - 1 then gget g (coordToIndex x (y + 1) w) else gget g (coordToIndex x y w)
  ((r - l) / 2, (d - u) / 2)

/-- Integer clamp used by the blur edge handling. -/
def iclamp (v mn mx : ℤ) : ℤ := min (max v mn) mx

/-- `createGaussianKernel(radius)`: unnormalized Gaussian weights then
normalization by their sum. -/
def createGaussianKernel (M : JSMath) (radius : ℕ) : List ℚ :=
  let sigma : ℚ := (radius : ℚ) / 3
  let s : ℚ := 2 * sigma * sigma
  let offs := (List.range (2 * radius + 1)).map (fun i => (i : ℤ) - (radius : ℤ))
  let raw := offs.flatMap (fun y => offs.map (fun x =>
    M.exp (-(((x * x + y * y : ℤ) : ℚ)) / s) / (jsPI * s)))
  let sum := raw.foldl (· + ·) 0
  raw.map (· / sum)

/-- `gaussianBlur(data, width, height, radius)`: separable-kernel blur with
edge clamping and per-pixel weight renormalization. -/
def gaussianBlur (M : JSMath) (data : Grid) (w h radius : ℕ) : Grid :=
  let kernel := createGaussianKernel M radius
  let kernelSize := radius * 2 + 1
  let offs := (List.range (2 * radius + 1)).map (fun i => (i : ℤ) - (radius : ℤ))
  (List.range (w * h)).map (fun idx =>
    let x := (idx % w : ℕ)
    let y := (idx / w : ℕ)
    let acc := offs.foldl (fun (a : ℚ × ℚ) ky =>
      offs.foldl (fun (a : ℚ × ℚ) kx =>
        let nx := iclamp ((x : ℤ) + kx) 0 ((w : ℤ) - 1)
        let ny := iclamp ((y : ℤ) + ky) 0 ((h : ℤ) - 1)
        let weight := kernel.getD (((ky + radius) * kernelSize + (kx + radius)).toNat) 0
        (a.1 + gget data (coordToIndex nx.toNat ny.toNat w) * weight, a.2 + weight)) a) (0, 0)
    acc.1 / acc.2)

/-! ## Core data model (`src/types/index.ts`) -/

/-- The eleven map-type variants. -/
inductive MapType where
  | island | archipelago | peninsula | continent | inland
  | coastal | isthmus | atoll | delta | fjord | greatLake
  deriving DecidableEq, Repr

/-- The four map-size presets. -/
inductive MapSize where
  | local | regional | kingdom | continental
  deriving DecidableEq, Repr

/-- The eight ordered settlement size tiers. -/
inductive SettlementSize where
  | thorp | hamlet | village | smallTown | largeTown | smallCity | largeCity | metropolis
  deriving DecidableEq, Repr

/-- River path sample: sub-cell position and flow. -/
structure RiverSegment where
  x : ℚ
  y : ℚ
  flow : ℚ
  deriving DecidableEq, Repr

/-- A river: id, name and ordered path samples. -/
structure River where
  id : String
  name : String
  segments : List RiverSegment
  deriving DecidableEq, Repr

/-- A settlement record. -/
structure Settlement where
  id : String
  name : String
  x : ℕ
  y : ℕ
  size : SettlementSize
  population : ℤ
  type : String
  deriving DecidableEq, Repr

/-- `MapConfig`: the read-only inputs to a generation run. -/
structure MapConfig where
  seed : String
  mapType : MapType
  mapSize : MapSize
  width : ℕ
  height : ℕ
  seaLevel : ℚ
  roughness : ℚ
  waterCoverage : ℚ
  forestDensity : ℚ
  settlementDensity : ℚ
  deriving DecidableEq, Repr

/-- `MapData`: the full output of a generation run (rendering-only `pois`
and `roads` are always empty). -/
structure MapData where
  config : MapConfig
  heightmap : Grid
  moisture : Grid
  temperature : Grid
  biomes : List ℕ
  rivers : List River
  settlements : List Settlement
  deriving DecidableEq, Repr

/-- A 2D noise field (third-party simplex noise, abstractly). Per the spec
it is continuous, seed-derived and valued in [-1,1]. -/
abbrev Noise2 := ℚ → ℚ → ℚ

/-- Modelled from the spec: each `createNoise2D(() => rng.next())` call site
of the source constructs a fresh seed-derived noise field (a
permutation/gradient table drawn from the PRNG, §4.2); the `simplex-noise`
library itself is not repository code, so each construction site is
modelled as an explicitly supplied noise field. Sites that construct a
noise per grid cell become families indexed by the cell index. -/
structure NoiseEnv where
  fbm : Noise2
  warpX : Noise2
  warpY : Noise2
  arch1 : ℕ → Noise2
  arch2 : ℕ → Noise2
  atoll1 : ℕ → Noise2
  atoll2 : ℕ → Noise2
  delta : ℕ → Noise2
  fjord1 : ℕ → Noise2
  fjord2 : ℕ → Noise2
  inland1 : ℕ → Noise2
  inland2 : ℕ → Noise2
  lakeBlend1 : ℕ → Noise2
  lakeBlend2 : ℕ → Noise2
  gl1 : ℕ → Noise2
  gl2 : ℕ → Noise2
  temp : Noise2
  moist : Noise2
  biome : Noise2

/-! ## Heightmap synthesizer (`src/generation/terrain/heightmap.ts`) -/

/-- `generateFBM`: 6-octave fractal Brownian motion, persistence from
roughness, lacunarity 2, normalized by total amplitude. -/
def generateFBM (noise : Noise2) (w h : ℕ) (roughness : ℚ) : Grid :=
  let persistence := 1 / 2 + roughness * (1 / 5)
  let lacunarity : ℚ := 2
  let baseScale : ℚ := ((max w h : ℕ) : ℚ) / 4
  (List.range (w * h)).map (fun idx =>
    let x := idx % w
    let y := idx / w
    let res := (List.range 6).foldl
      (fun (st : ℚ × ℚ × ℚ × ℚ) _ =>
        let nx := ((x : ℚ) / baseScale) * st.2.1
        let ny := ((y : ℚ) / baseScale) * st.2.1
        (st.1 * persistence, st.2.1 * lacunarity,
         st.2.2.1 + noise nx ny * st.1, st.2.2.2 + st.1))
      (1, 1, 0, 0)
    res.2.2.1 / res.2.2.2)

/-- `islandMask`: radial falloff. -/
def islandMask (nd variation : ℚ) : ℚ :=
  1 - smootherstepQ (3 / 10) (9 / 10) (nd + variation)

/-- `archipelagoMask`: clustered blob noise gated by detail noise with
map-edge fade. -/
def archipelagoMask (clusterNoise detailNoise : Noise2) (x y : ℚ) (w h : ℕ) : ℚ :=
  let nx := x / (w : ℚ)
  let ny := y / (h : ℚ)
  let clusters := clusterNoise (nx * 3) (ny * 3)
  let islands := detailNoise (nx * 15) (ny * 15)
  let clusterVal := (clusters + 1) / 2
  let islandVal := (islands + 1) / 2
  let shapedCluster := smootherstepQ (2 / 5) (4 / 5) clusterVal
  let mask := shapedCluster * islandVal * (3 / 2)
  let edgeDist := max |nx - 1 / 2| |ny - 1 / 2| * 2
  let edgeFalloff := smootherstepQ (4 / 5) 1 edgeDist
  clampQ (mask * (1 - edgeFalloff)) 0 1

/-- `peninsulaMask`: width tapering with the vertical position, pointed tip. -/
def peninsulaMask (x y : ℚ) (w h : ℕ) (variation : ℚ) : ℚ :=
  let yFactor := y / (h : ℚ)
  let xCenter := |x - (w : ℚ) / 2| / ((w : ℚ) / 2)
  let baseWidth := 4 / 5 - yFactor * (3 / 5) + variation * (3 / 20)
  let tipStart : ℚ := 7 / 10
  if yFactor > tipStart then
    let tipProgress := (yFactor - tipStart) / (1 - tipStart)
    let tipWidth := baseWidth * (1 - tipProgress * (9 / 10))
    if xCenter < tipWidth then
      let edgeSoftness := smootherstepQ tipWidth (tipWidth * (1 / 2)) xCenter
      let tipFade := 1 - smootherstepQ (17 / 20) 1 yFactor
      edgeSoftness * tipFade
    else 0
  else if xCenter < baseWidth then
    smootherstepQ baseWidth (baseWidth * (3 / 5)) xCenter
  else 0

/-- `continentMask`: soft radial falloff leaving a broad landmass. -/
def continentMask (nd variation : ℚ) : ℚ :=
  1 - smootherstepQ (1 / 2) 1 (nd + variation * (1 / 2)) * (7 / 10)

/-- `coastalMask`: wavy coastline from randomized sine phases; draws three
phases from the PRNG per evaluation. -/
def coastalMask (M : JSMath) (x y : ℚ) (w h : ℕ) (variation : ℚ) (r : SR) : ℚ × SR :=
  let xFactor := x / (w : ℚ)
  let yFactor := y / (h : ℚ)
  let (p1, r) := r.next
  let (p2, r) := r.next
  let (p3, r) := r.next
  let phase1 := p1 * jsPI * 2
  let phase2 := p2 * jsPI * 2
  let phase3 := p3 * jsPI * 2
  let wave1 := M.sin (yFactor * jsPI * 3 + phase1) * (2 / 25)
  let wave2 := M.sin (yFactor * jsPI * 7 + 3 / 2 + phase2) * (1 / 25)
  let wave3 := M.sin (yFactor * jsPI * 13 + 3 + phase3) * (1 / 50)
  let bays := M.sin (yFactor * jsPI * (3 / 2)) * (3 / 25)
  let coastLine := 1 / 4 + wave1 + wave2 + wave3 + bays + variation * (3 / 20)
  let inletChance := M.sin (yFactor * jsPI * 5) * M.sin (yFactor * jsPI * 8)
  let inlet : ℚ := if inletChance > 1 / 2 then 1 / 10 else 0
  let effectiveCoast := coastLine + inlet
  (if xFactor < effectiveCoast then smootherstepQ 0 (effectiveCoast * (4 / 5)) xFactor
   else 1, r)

/-- `isthmusMask`: wide at both ends, narrow in the middle. -/
def isthmusMask (M : JSMath) (x y : ℚ) (w h : ℕ) (variation : ℚ) : ℚ :=
  let xCenter := |x - (w : ℚ) / 2| / ((w : ℚ) / 2)
  let yFactor := y / (h : ℚ)
  let narrowness := M.sin (yFactor * jsPI)
  let isthmusWidth := 7 / 10 - narrowness * (11 / 20) + variation * (1 / 10)
  let coastWobble := M.sin (yFactor * jsPI * 6) * (1 / 20)
  let effectiveWidth := isthmusWidth + coastWobble
  if xCenter < effectiveWidth then
    smootherstepQ effectiveWidth (effectiveWidth * (7 / 10)) xCenter
  else 0

/-- `atollMask`: broken ring of islands with angular noise gaps. -/
def atollMask (M : JSMath) (breakNoise islandNoise : Noise2) (x y : ℚ) (w h : ℕ)
    (nd variation : ℚ) : ℚ :=
  let centerX := (w : ℚ) / 2
  let centerY := (h : ℚ) / 2
  let angle := M.atan2 (y - centerY) (x - centerX)
  let ringCenter : ℚ := 9 / 20
  let ringWidth : ℚ := 3 / 25
  let ringDist := |nd - ringCenter|
  if ¬(ringDist < ringWidth) then 0
  else
    let angularBreak := breakNoise (M.cos angle * 2) (M.sin angle * 2)
    let islandShape := islandNoise (x / 30) (y / 30)
    let gapThreshold := -(1 / 10) + variation * (1 / 5)
    if angularBreak < gapThreshold then 0
    else
      let ringStrength := 1 - ringDist / ringWidth
      let ringIsland := (angularBreak + 1 / 2) * ringStrength
      let smallIslands : ℚ := if islandShape > 3 / 10 then 3 / 10 else 0
      clampQ (ringIsland + smallIslands) 0 1

/-- `deltaMask`: fan-widening triangle with channel noise cutting through. -/
def deltaMask (channelNoise : Noise2) (x y : ℚ) (w h : ℕ) (variation : ℚ) : ℚ :=
  let xNorm := x / (w : ℚ)
  let yFactor := y / (h : ℚ)
  let distFromCenter := |xNorm - 1 / 2|
  let maxWidth := 1 / 10 + (1 - yFactor) * (9 / 20)
  if distFromCenter > maxWidth then 0
  else
    let channelDensity := (1 - yFactor) * 8 + 2
    let channelPattern := channelNoise (xNorm * channelDensity) (yFactor * 3)
    let isChannel := channelPattern < -(1 / 5) - yFactor * (3 / 10)
    if isChannel ∧ yFactor > 3 / 10 then 0
    else
      let edgeFade := smootherstepQ maxWidth (maxWidth * (3 / 5)) distFromCenter
      let islandVal := channelNoise (x / 40) (y / 40)
      if yFactor > 7 / 10 then
        if islandVal > 1 / 5 then edgeFade * (4 / 5) else 0
      else edgeFade * (3 / 5 + yFactor * (2 / 5) + variation * (1 / 10))

/-- `fjordMask`: noise-driven inlets from the top edge; draws four
randomized frequencies from the PRNG per evaluation. -/
def fjordMask (n1 n2 : Noise2) (x y : ℚ) (w h : ℕ) (variation : ℚ)
    (r : SR) : ℚ × SR :=
  let xNorm := x / (w : ℚ)
  let yFactor := y / (h : ℚ)
  let baseLand := smootherstepQ (1 / 10) (1 / 2) yFactor
  let (f1, r) := r.next
  let (f2, r) := r.next
  let (f3, r) := r.next
  let (f4, r) := r.next
  let freq1X := 4 + f1 * 3
  let freq1Y := 2 / 5 + f2 * (2 / 5)
  let freq2X := 7 + f3 * 5
  let freq2Y := 3 / 5 + f4 * (3 / 5)
  let fjord1 := n1 (xNorm * freq1X) (yFactor * freq1Y)
  let fjord2 := n2 (xNorm * freq2X + 10) (yFactor * freq2Y)
  let fjordDepth1 : ℚ := if fjord1 > 3 / 10 then (fjord1 - 3 / 10) * (5 / 2) else 0
  let fjordDepth2 : ℚ := if fjord2 > 2 / 5 then (fjord2 - 2 / 5) * 2 else 0
  let fjordReach1 := fjordDepth1 * (7 / 10)
  let fjordReach2 := fjordDepth2 * (7 / 10) * (4 / 5)
  let inFjord1 := yFactor < fjordReach1 ∧ fjord1 > 3 / 10
  let inFjord2 := yFactor < fjordReach2 ∧ fjord2 > 2 / 5
  if inFjord1 ∨ inFjord2 then
    let skerry := n1 (x / 20) (y / 20)
    (if skerry > 7 / 10 ∧ yFactor > 3 / 20 then (3 / 5 : ℚ) else 0, r)
  else
    let coastDetail := n1 (xNorm * 15) (yFactor * 2) * (3 / 20)
    let fallThrough := clampQ (baseLand + coastDetail + variation * (1 / 10)) 0 1
    if yFactor < 3 / 10 then
      let coastRuffle := n2 (xNorm * 20) (yFactor * 10) * (1 / 5)
      if coastRuffle > 3 / 20 then (0, r) else (fallThrough, r)
    else (fallThrough, r)

/-- `inlandMask`: solid land minus threshold-noise lakes; the threshold is
an affine function of the water-coverage parameter. -/
def inlandMask (lakeNoise lakeDetail : Noise2) (x y : ℚ) (w h : ℕ) (wc : ℚ) : ℚ :=
  let nx := x / (w : ℚ)
  let ny := y / (h : ℚ)
  let val := lakeNoise (nx * 3) (ny * 3)
  let detail := lakeDetail (nx * 10) (ny * 10) * (1 / 5)
  let combined := val + detail
  let threshold := wc * (12 / 5) - 6 / 5
  if combined < threshold then 0 else 1

/-- `greatLakeMask`: inverted radial shape carving a central lake, with
noise distortion and optional islands inside the lake. -/
def greatLakeMask (shapeNoise islandNoise : Noise2) (x y nd wc : ℚ) : ℚ :=
  let lakeRadius := 1 / 5 + wc * (1 / 2)
  let distortion := shapeNoise (x / 150) (y / 150) * (1 / 5)
  let lakeBoundary := lakeRadius + distortion
  if nd < lakeBoundary then
    let islandVal := islandNoise (x / 50) (y / 50)
    if islandVal > 3 / 5 then 1 else 0
  else smootherstepQ lakeBoundary (lakeBoundary + 1 / 10) nd

/-- The blend step of `applyLandmassMask` for one cell: mask below 0.3 is
ocean with a depth gradient against the hardcoded sea level constant 0.35;
mask at or above 0.3 interpolates between that constant and a
terrain-noise-modulated ceiling. `hval` is the cell's pre-blend fBM value. -/
def blendMaskCell (mask hval : ℚ) : ℚ :=
  let terrainValue := (hval + 1) / 2
  let seaLvl : ℚ := 7 / 20
  if mask < 3 / 10 then
    mask / (3 / 10) * seaLvl * (19 / 20)
  else
    let landFactor := (mask - 3 / 10) / (7 / 10)
    let smoothedLand := smootherstepQ 0 1 landFactor
    let maxHeight := 2 / 5 + terrainValue * (3 / 5)
    seaLvl + (maxHeight - seaLvl) * smoothedLand

/-- The map types that get the inland-lake carve in `applyLandmassMask`. -/
def isLargeLandmassType (mt : MapType) : Bool :=
  match mt with
  | .continent | .peninsula | .isthmus | .island => true
  | _ => false

/-- One cell of `applyLandmassMask`: domain warp, rotation/scale transform,
mask dispatch by map type, inland-lake carve for large landmasses, blend. -/
def maskCell (E : NoiseEnv) (M : JSMath) (w h : ℕ) (mt : MapType) (wc : ℚ)
    (centerX centerY maxRadius warpStrength c s scaleX scaleY : ℚ)
    (idx : ℕ) (hval : ℚ) (r : SR) : ℚ × SR :=
  let x : ℚ := (idx % w : ℕ)
  let y : ℚ := (idx / w : ℕ)
  let warpScale : ℚ := 1 / 200
  let wx := x + E.warpX (x * warpScale) (y * warpScale) * warpStrength
  let wy := y + E.warpY (x * warpScale) (y * warpScale) * warpStrength
  let dist := distanceQ M wx wy centerX centerY
  let nd := dist / maxRadius
  let dx := wx - centerX
  let dy := wy - centerY
  let tx := (dx * c - dy * s) * scaleX + centerX
  let ty := (dx * s + dy * c) * scaleY + centerY
  let variation := E.warpX (wx / 50) (wy / 50) * (1 / 5)
  let (mask, r) :=
    match mt with
    | .island => (islandMask nd variation, r)
    | .archipelago => (archipelagoMask (E.arch1 idx) (E.arch2 idx) wx wy w h, r)
    | .peninsula => (peninsulaMask tx ty w h variation, r)
    | .continent => (continentMask nd variation, r)
    | .coastal => coastalMask M tx ty w h variation r
    | .inland => (inlandMask (E.inland1 idx) (E.inland2 idx) wx wy w h wc, r)
    | .isthmus => (isthmusMask M tx ty w h variation, r)
    | .atoll => (atollMask M (E.atoll1 idx) (E.atoll2 idx) wx wy w h nd variation, r)
    | .greatLake => (greatLakeMask (E.gl1 idx) (E.gl2 idx) wx wy nd wc, r)
    | .delta => (deltaMask (E.delta idx) tx ty w h variation, r)
    | .fjord => fjordMask (E.fjord1 idx) (E.fjord2 idx) tx ty w h variation r
  let mask :=
    if isLargeLandmassType mt ∧ mask > 4 / 5 then
      let lakeVal := inlandMask (E.lakeBlend1 idx) (E.lakeBlend2 idx) wx wy w h wc
      if lakeVal < 1 / 10 then mask * (3 / 10) else mask
    else mask
  (blendMaskCell mask hval, r)

/-- `applyLandmassMask`: draws rotation angle and axis scales, then rewrites
every cell in row-major order. -/
def applyLandmassMask (E : NoiseEnv) (M : JSMath) (g : Grid) (w h : ℕ)
    (mt : MapType) (r : SR) (wc : ℚ) : Grid × SR :=
  let centerX : ℚ := (w : ℚ) / 2
  let centerY : ℚ := (h : ℚ) / 2
  let maxRadius : ℚ := ((min w h : ℕ) : ℚ) / 2
  let warpStrength : ℚ := ((min w h : ℕ) : ℚ) * (1 / 5)
  let (a, r) := r.next
  let angle := a * jsPI * 2
  let c := M.cos angle
  let s := M.sin angle
  let (sx, r) := r.next
  let scaleX := 4 / 5 + sx * (2 / 5)
  let (sy, r) := r.next
  let scaleY := 4 / 5 + sy * (2 / 5)
  (List.range (w * h)).foldl
    (fun (st : Grid × SR) idx =>
      let (v, r') := maskCell E M w h mt wc centerX centerY maxRadius warpStrength
        c s scaleX scaleY idx (gget st.1 idx) st.2
      (st.1.set idx v, r'))
    (g, r)

/-- `normalizeHeightmap`: clamp every cell to [0,1]. -/
def normalizeHeightmap (g : Grid) : Grid := g.map (fun v => clampQ v 0 1)

/-- `cleanupArtifacts` (despeckle): one cellular-automaton pass collecting
changes against the original grid, then applying them; a land cell with at
most one 4-neighbor land cell is sunk just below the threshold, a water
cell with at least three land neighbors is raised just above it. -/
def cleanupArtifacts (g : Grid) (w h : ℕ) (thr : ℚ) : Grid :=
  let interior := (List.range (w * h)).filter (fun idx =>
    1 ≤ idx % w ∧ idx % w < w - 1 ∧ 1 ≤ idx / w ∧ idx / w < h - 1)
  let changes := interior.filterMap (fun idx =>
    let x := idx % w
    let y := idx / w
    let val := gget g idx
    let isLand := val > thr
    let nIdxs := [coordToIndex (x + 1) y w, coordToIndex (x - 1) y w,
                  coordToIndex x (y + 1) w, coordToIndex x (y - 1) w]
    let neighborLandCount := (nIdxs.filter (fun n => gget g n > thr)).length
    if isLand ∧ neighborLandCount ≤ 1 then some (idx, thr - 1 / 100)
    else if ¬isLand ∧ neighborLandCount ≥ 3 then some (idx, thr + 1 / 100)
    else none)
  changes.foldl (fun g' (p : ℕ × ℚ) => g'.set p.1 p.2) g

/-- `adjustWaterCoverage`: documented corrective step that performs no
mutation for any map type. -/
def adjustWaterCoverage (g : Grid) (_sl _wc : ℚ) (_mt : MapType) : Grid := g

/-- `generateHeightmap`: fBM, landmass mask with warp/rotation, clamp
normalization, despeckle, (no-op) water-coverage adjustment. -/
def generateHeightmap (E : NoiseEnv) (M : JSMath) (w h : ℕ) (seed : String)
    (mt : MapType) (sl rough wc : ℚ) : Grid :=
  let r := SR.fromString seed
  let g := generateFBM E.fbm w h rough
  let g := (applyLandmassMask E M g w h mt r wc).1
  let g := normalizeHeightmap g
  let g := cleanupArtifacts g w h sl
  adjustWaterCoverage g sl wc mt

/-! ## Erosion simulator (`src/generation/terrain/erosion.ts`) -/

/-- `getInterpolatedHeight`: bilinear interpolation at a fractional
position (indices floored, then clamped to the last column/row). -/
def getInterpolatedHeight (g : Grid) (x y : ℚ) (w h : ℕ) : ℚ :=
  let x0 := ⌊x⌋
  let y0 := ⌊y⌋
  let x1 := min (x0 + 1) ((w : ℤ) - 1)
  let y1 := min (y0 + 1) ((h : ℤ) - 1)
  let fx := x - x0
  let fy := y - y0
  let h00 := gget g (coordToIndex x0.toNat y0.toNat w)
  let h10 := gget g (coordToIndex x1.toNat y0.toNat w)
  let h01 := gget g (coordToIndex x0.toNat y1.toNat w)
  let h11 := gget g (coordToIndex x1.toNat y1.toNat w)
  let h0 := h00 * (1 - fx) + h10 * fx
  let h1 := h01 * (1 - fx) + h11 * fx
  h0 * (1 - fy) + h1 * fy

/-- `depositSediment`: bilinear distribution of deposited material over the
four enclosing cells. -/
def depositSediment (g : Grid) (x y : ℚ) (w h : ℕ) (amount : ℚ) : Grid :=
  let x0 := ⌊x⌋
  let y0 := ⌊y⌋
  let x1 := min (x0 + 1) ((w : ℤ) - 1)
  let y1 := min (y0 + 1) ((h : ℤ) - 1)
  let fx := x - x0
  let fy := y - y0
  let add := fun (g' : Grid) (i : ℕ) (v : ℚ) => g'.set i (gget g' i + v)
  let g := add g (coordToIndex x0.toNat y0.toNat w) (amount * (1 - fx) * (1 - fy))
  let g := add g (coordToIndex x1.toNat y0.toNat w) (amount * fx * (1 - fy))
  let g := add g (coordToIndex x0.toNat y1.toNat w) (amount * (1 - fx) * fy)
  add g (coordToIndex x1.toNat y1.toNat w) (amount * fx * fy)

/-- `erodeTerrain`: remove material from a radius-2 distance-weighted
neighborhood around the floored position. -/
def erodeTerrain (M : JSMath) (g : Grid) (x y : ℚ) (w h : ℕ) (amount : ℚ) : Grid :=
  let radius : ℚ := 2
  let x0 := ⌊x⌋
  let y0 := ⌊y⌋
  let offs := [(-2 : ℤ), -1, 0, 1, 2]
  let weights := offs.flatMap (fun dy => offs.filterMap (fun dx =>
    let nx := x0 + dx
    let ny := y0 + dy
    if nx < 0 ∨ nx ≥ (w : ℤ) ∨ ny < 0 ∨ ny ≥ (h : ℤ) then none
    else
      let dist := M.sqrt ((dx * dx + dy * dy : ℤ) : ℚ)
      if dist ≤ radius then
        some (coordToIndex nx.toNat ny.toNat w, max 0 (radius - dist) / radius)
      else none))
  let totalWeight := weights.foldl (fun a p => a + p.2) 0
  weights.foldl (fun g' p => g'.set p.1 (gget g' p.1 - amount * (p.2 / totalWeight))) g

/-- One droplet's state during the hydraulic-erosion walk. -/
structure Droplet where
  x : ℚ
  y : ℚ
  dirX : ℚ
  dirY : ℚ
  speed : ℚ
  water : ℚ
  sediment : ℚ

/-- Default erosion constants (`DEFAULT_EROSION_OPTIONS` minus dimensions). -/
structure ErosionParams where
  erosionRate : ℚ := 3 / 10
  depositionRate : ℚ := 3 / 10
  evaporationRate : ℚ := 1 / 50
  sedimentCapacity : ℚ := 4
  minSlope : ℚ := 1 / 100

/-- One step of a droplet (the body of the 64-step inner loop); returns the
updated grid, PRNG and droplet, or `none` when the droplet stops. -/
def dropletStep (M : JSMath) (P : ErosionParams) (w h : ℕ)
    (st : Grid × SR × Droplet) : Option (Grid × SR × Droplet) :=
  let (g, r, d) := st
  let intX := ⌊d.x⌋
  let intY := ⌊d.y⌋
  if intX < 0 ∨ intX ≥ (w : ℤ) - 1 ∨ intY < 0 ∨ intY ≥ (h : ℤ) - 1 then none
  else
    let grad := gradientQ g intX.toNat intY.toNat w h
    let inertia : ℚ := 3 / 10
    let dirX := d.dirX * inertia - grad.1 * (1 - inertia)
    let dirY := d.dirY * inertia - grad.2 * (1 - inertia)
    let len := M.sqrt (dirX * dirX + dirY * dirY)
    let (dirX, dirY, r) :=
      if len > 0 then (dirX / len, dirY / len, r)
      else
        let (a, r') := r.range 0 (jsPI * 2)
        (M.cos a, M.sin a, r')
    let newX := d.x + dirX
    let newY := d.y + dirY
    if newX < 0 ∨ newX ≥ (w : ℚ) - 1 ∨ newY < 0 ∨ newY ≥ (h : ℚ) - 1 then none
    else
      let oldHeight := getInterpolatedHeight g d.x d.y w h
      let newHeight := getInterpolatedHeight g newX newY w h
      let heightDiff := newHeight - oldHeight
      let slope := max (-heightDiff) P.minSlope
      let capacity := max (slope * d.speed * d.water * P.sedimentCapacity) 0
      let (g, sediment) :=
        if d.sediment > capacity ∨ heightDiff > 0 then
          let depositAmount :=
            if heightDiff > 0 then min d.sediment heightDiff
            else (d.sediment - capacity) * P.depositionRate
          (depositSediment g d.x d.y w h depositAmount, d.sediment - depositAmount)
        else
          let erodeAmount := min ((capacity - d.sediment) * P.erosionRate) (-heightDiff)
          (erodeTerrain M g d.x d.y w h erodeAmount, d.sediment + erodeAmount)
      let speed := M.sqrt (max 0 (d.speed * d.speed + heightDiff))
      let water := d.water * (1 - P.evaporationRate)
      if water < 1 / 100 then none
      else some (g, r, ⟨newX, newY, dirX, dirY, speed, water, sediment⟩)

/-- Run one droplet for up to `fuel` steps. -/
def dropletRun (M : JSMath) (P : ErosionParams) (w h : ℕ) :
    ℕ → Grid × SR × Droplet → Grid × SR
  | 0, (g, r, _) => (g, r)
  | fuel + 1, st =>
    match dropletStep M P w h st with
    | none => (st.1, st.2.1)
    | some st' => dropletRun M P w h fuel st'

/-- `applyErosion`: spawn `iterations` droplets at random positions, walk
each for up to 64 steps, then min–max normalize the grid into [0,1]. -/
def applyErosion (M : JSMath) (g : Grid) (seed : String) (w h iterations : ℕ) : Grid :=
  let P : ErosionParams := {}
  let r := SR.fromString (seed ++ "_erosion")
  let eroded := ((List.range iterations).foldl
    (fun (st : Grid × SR) _ =>
      let xr := st.2.range 0 ((w : ℚ) - 1)
      let yr := xr.2.range 0 ((h : ℚ) - 1)
      dropletRun M P w h 64 (st.1, yr.2, ⟨xr.1, yr.1, 0, 0, 1, 1, 0⟩))
    (g, r)).1
  let mn := (eroded.min?).getD 0
  let mx := (eroded.max?).getD 0
  let range := if mx - mn = 0 then 1 else mx - mn
  eroded.map (fun v => clampQ ((v - mn) / range) 0 1)

/-- One interior cell of the thermal-erosion scan: find the steepest lower
4-neighbor whose drop exceeds the talus angle and move half the excess. -/
def thermalCell (w : ℕ) (talusAngle : ℚ) (g : Grid) (idx : ℕ) : Grid :=
  let x := idx % w
  let y := idx / w
  let hv := gget g idx
  let neighbors := [coordToIndex (x - 1) y w, coordToIndex (x + 1) y w,
                    coordToIndex x (y - 1) w, coordToIndex x (y + 1) w]
  let best := neighbors.foldl
    (fun (b : ℚ × Option ℕ) nIdx =>
      let diff := hv - gget g nIdx
      if diff > b.1 ∧ diff > talusAngle then (diff, some nIdx) else b)
    (0, none)
  match best.2 with
  | none => g
  | some nIdx =>
    let transfer := (best.1 - talusAngle) * (1 / 2)
    let g := g.set idx (hv - transfer)
    g.set nIdx (gget g nIdx + transfer)

/-- `applyThermalErosion`: iterated grid scans transferring half the slope
excess beyond the talus angle to the single steepest lower 4-neighbor. -/
def applyThermalErosion (g : Grid) (w h iterations : ℕ) (talusAngle : ℚ := 1 / 2) : Grid :=
  (List.range iterations).foldl
    (fun g _ =>
      ((List.range (w * h)).filter (fun idx =>
        1 ≤ idx % w ∧ idx % w < w - 1 ∧ 1 ≤ idx / w ∧ idx / w < h - 1)).foldl
        (thermalCell w talusAngle) g) g

/-! ## Climate model (`src/generation/climate/index.ts`) -/

/-- `generateTemperature`: latitude band peaking at the vertical center,
elevation penalty, two-scale noise, ocean moderation, clamp, then a
radius-3 Gaussian blur. -/
def generateTemperature (noise : Noise2) (M : JSMath) (w h : ℕ) (hm : Grid)
    (sl : ℚ) : Grid :=
  let raw := (List.range (w * h)).map (fun idx =>
    let x := idx % w
    let y := idx / w
    let elevation := gget hm idx
    let latitudeFactor := 1 - |(y : ℚ) / (h : ℚ) - 1 / 2| * 2
    let baseTemp := latitudeFactor * (4 / 5) + 1 / 10
    let elevationAboveSea := max 0 (elevation - sl)
    let elevationFactor := 1 - elevationAboveSea * (3 / 2)
    let noiseLow := noise ((x : ℚ) / 150) ((y : ℚ) / 150) * (3 / 20)
    let noiseMed := noise ((x : ℚ) / 50 + 500) ((y : ℚ) / 50 + 500) * (2 / 25)
    let oceanModeration : ℚ := if elevation < sl then 1 / 2 else 0
    clampQ (baseTemp * elevationFactor + (noiseLow + noiseMed) + oceanModeration * (1 / 5)) 0 1)
  gaussianBlur M raw w h 3

/-- `generateMoisture`: water cells start at 1; 30 row-major max-propagation
passes over land with elevation-dependent attenuation; noise variance and
temperature-driven evaporation with clamping on land; radius-4 blur. -/
def generateMoisture (noise : Noise2) (M : JSMath) (w h : ℕ) (hm temp : Grid)
    (sl : ℚ) : Grid :=
  let moisture0 : Grid := (List.range (w * h)).map (fun idx =>
    if gget hm idx < sl then 1 else 0)
  let interior := (List.range (w * h)).filter (fun idx =>
    1 ≤ idx % w ∧ idx % w < w - 1 ∧ 1 ≤ idx / w ∧ idx / w < h - 1)
  let spread := (List.range 30).foldl
    (fun (m : Grid) _ =>
      interior.foldl
        (fun m idx =>
          if gget hm idx ≥ sl then
            let x := idx % w
            let y := idx / w
            let maxNeighbor :=
              max (max (gget m (coordToIndex (x - 1) y w)) (gget m (coordToIndex (x + 1) y w)))
                  (max (gget m (coordToIndex x (y - 1) w)) (gget m (coordToIndex x (y + 1) w)))
            let elevationPenalty : ℚ := if gget hm idx > sl + 3 / 10 then 7 / 10 else 23 / 25
            m.set idx (max (gget m idx) (maxNeighbor * elevationPenalty))
          else m) m)
    moisture0
  let withNoise := (List.range (w * h)).map (fun idx =>
    if gget hm idx ≥ sl then
      let x := idx % w
      let y := idx / w
      let noiseValue := noise ((x : ℚ) / 100) ((y : ℚ) / 100) * (1 / 5) +
        noise ((x : ℚ) / 50) ((y : ℚ) / 50) * (1 / 10)
      let tempEffect := gget temp idx * (3 / 20)
      clampQ (gget spread idx + noiseValue - tempEffect) 0 1
    else gget spread idx)
  gaussianBlur M withNoise w h 4

/-- `generateClimate`: derive temperature then moisture from the eroded
heightmap (the stage PRNG is consumed only by noise construction, which is
modelled by the two supplied noise fields). -/
def generateClimate (E : NoiseEnv) (M : JSMath) (w h : ℕ) (_seed : String)
    (hm : Grid) (sl : ℚ) : Grid × Grid :=
  let temperature := generateTemperature E.temp M w h hm sl
  let moisture := generateMoisture E.moist M w h hm temperature sl
  (temperature, moisture)

/-! ## Biome classifier (`src/generation/climate/biomes.ts`) -/

/-- The biome id table (`BIOME_IDS`): ocean 0, beach 1, grassland 2,
forest 3, rainforest 4, desert 5, tundra 6, snow 7, mountain 8, swamp 9,
lake 10. -/
def BIOME_IDS : List (String × ℕ) :=
  [("ocean", 0), ("beach", 1), ("grassland", 2), ("forest", 3), ("rainforest", 4),
   ("desert", 5), ("tundra", 6), ("snow", 7), ("mountain", 8), ("swamp", 9), ("lake", 10)]

/-- `classifyBiome`: pure per-cell Whittaker-style rule cascade. -/
def classifyBiome (elevation temperature moisture seaLevel beachLevel
    mountainLevel snowLevel : ℚ) : ℕ :=
  if elevation < seaLevel then 0
  else if elevation < beachLevel then 1
  else if elevation > snowLevel ∨ (elevation > mountainLevel ∧ temperature < 1 / 5) then 7
  else if elevation > mountainLevel then 8
  else if temperature < 1 / 5 then
    if moisture > 1 / 2 then 7 else 6
  else if temperature < 2 / 5 then
    if moisture > 3 / 5 then 3
    else if moisture > 3 / 10 then 2
    else 6
  else if temperature < 7 / 10 then
    if moisture > 4 / 5 then
      if elevation < seaLevel + 1 / 10 then 9 else 3
    else if moisture > 2 / 5 then 3
    else if moisture > 1 / 5 then 2
    else 5
  else if moisture > 7 / 10 then
    if elevation < seaLevel + 1 / 10 then 9 else 4
  else if moisture > 2 / 5 then 3
  else if moisture > 1 / 5 then 2
  else 5

/-- `generateBiomes`: per-cell noise jitter on temperature/moisture and on
the beach threshold, then `classifyBiome` on the unmodified elevation. -/
def generateBiomes (noise : Noise2) (w h : ℕ) (hm temp moist : Grid)
    (sl : ℚ) : List ℕ :=
  let beachLevel := sl + 3 / 100
  (List.range (w * h)).map (fun idx =>
    let x := idx % w
    let y := idx / w
    let jitterT := noise ((x : ℚ) / 60) ((y : ℚ) / 60) * (2 / 25)
    let jitterM := noise ((x : ℚ) / 60 + 100) ((y : ℚ) / 60 + 100) * (2 / 25)
    let elevation := gget hm idx
    let t := clampQ (gget temp idx + jitterT) 0 1
    let m := clampQ (gget moist idx + jitterM) 0 1
    let beachNoise := noise ((x : ℚ) / 20) ((y : ℚ) / 20)
    let beachThreshold := beachLevel - (if beachNoise > 3 / 5 then 1 / 50 else 0)
    classifyBiome elevation t m sl beachThreshold (7 / 10) (17 / 20))

/-! ## Hydrology tracer (`src/generation/hydrology/rivers.ts`) -/

/-- Options consumed by `generateRivers`. -/
structure RiverOptions where
  width : ℕ
  height : ℕ
  seed : String
  heightmap : Grid
  moisture : Grid
  seaLevel : ℚ
  riverCount : ℕ
  minRiverLength : ℕ

/-- `findRiverSources`: stride-sample the interior, score qualifying cells
(elevation in `(seaLevel+0.3, 0.9)`) by elevation, moisture and a random
jitter, stable-sort descending by score and keep the best `count`. -/
def findRiverSources (w h : ℕ) (hm moist : Grid) (sl : ℚ) (r : SR)
    (count : ℕ) : List (ℕ × ℕ) × SR :=
  let sampleStep := max 4 (w / 50)
  let positions := ((List.range h).filter (fun y =>
      sampleStep ≤ y ∧ y < h - sampleStep ∧ y % sampleStep = 0)).flatMap (fun y =>
    ((List.range w).filter (fun x =>
      sampleStep ≤ x ∧ x < w - sampleStep ∧ x % sampleStep = 0)).map
      (fun x => (x, y)))
  let (cands, r) := positions.foldl
    (fun (st : List (ℕ × ℕ × ℚ) × SR) p =>
      let idx := coordToIndex p.1 p.2 w
      let elevation := gget hm idx
      if elevation > sl + 3 / 10 ∧ elevation < 9 / 10 then
        let (n, r') := st.2.next
        (st.1 ++ [(p.1, p.2, elevation * (1 / 2) + gget moist idx * (1 / 2) + n * (1 / 5))], r')
      else st)
    ([], r)
  let sorted := cands.foldl
    (fun acc c =>
      let rec ins : List (ℕ × ℕ × ℚ) → List (ℕ × ℕ × ℚ)
        | [] => [c]
        | d :: ds => if d.2.2 ≥ c.2.2 then d :: ins ds else c :: d :: ds
      ins acc) []
  ((sorted.take count).map (fun c => (c.1, c.2.1)), r)

/-- `findSteepestDescent`: shuffle the 8 neighbor offsets (consuming PRNG
draws), then take the strictly lowest in-bounds neighbor, ties resolved by
the shuffled visit order. -/
def findSteepestDescent (x y : ℤ) (w h : ℕ) (hm : Grid) (r : SR) :
    (ℤ × ℤ) × SR :=
  let currentHeight := gget hm (coordToIndex x.toNat y.toNat w)
  let neighbors : List (ℤ × ℤ) :=
    [(-1, 0), (1, 0), (0, -1), (0, 1), (-1, -1), (1, -1), (-1, 1), (1, 1)]
  let (shuffled, r) := r.shuffle neighbors
  let best := shuffled.foldl
    (fun (b : ℚ × ℤ × ℤ) d =>
      let nx := x + d.1
      let ny := y + d.2
      if nx < 0 ∨ nx ≥ (w : ℤ) ∨ ny < 0 ∨ ny ≥ (h : ℤ) then b
      else
        let nh := gget hm (coordToIndex nx.toNat ny.toNat w)
        if nh < b.1 then (nh, nx, ny) else b)
    (currentHeight, x, y)
  ((best.2.1, best.2.2), r)

/-- One pop of the local-minimum-escape BFS queue. -/
def escapeLoop (w h : ℕ) (hm : Grid) (sl startHeight : ℚ) :
    ℕ → List (ℤ × ℤ × ℕ) → List ℕ → Option (ℤ × ℤ)
  | 0, _, _ => none
  | _, [], _ => none
  | fuel + 1, (cx, cy, depth) :: rest, visited =>
    if depth > 20 then escapeLoop w h hm sl startHeight fuel rest visited
    else
      let idx := coordToIndex cx.toNat cy.toNat w
      if visited.contains idx then escapeLoop w h hm sl startHeight fuel rest visited
      else
        let currentHeight := gget hm idx
        if currentHeight < startHeight ∨ currentHeight < sl then some (cx, cy)
        else
          let pushes := ([(-1, 0), (1, 0), (0, -1), (0, 1)] : List (ℤ × ℤ)).filterMap
            (fun d =>
              let nx := cx + d.1
              let ny := cy + d.2
              if 0 ≤ nx ∧ nx < (w : ℤ) ∧ 0 ≤ ny ∧ ny < (h : ℤ) then
                some (nx, ny, depth + 1)
              else none)
          escapeLoop w h hm sl startHeight fuel (rest ++ pushes) (idx :: visited)

/-- `escapeLocalMinimum`: bounded 4-neighbor BFS (depth ≤ 20) for a cell
strictly lower than the start or below sea level. -/
def escapeLocalMinimum (x y : ℤ) (w h : ℕ) (hm : Grid) (sl : ℚ) :
    Option (ℤ × ℤ) :=
  escapeLoop w h hm sl (gget hm (coordToIndex x.toNat y.toNat w))
    (20 * w * h + 100) [(x, y, 0)] []

/-- The body of `traceRiver`'s step loop, with explicit fuel (`maxSteps`). -/
def traceLoop (w h : ℕ) (hm : Grid) (sl : ℚ) (used : List ℕ) :
    ℕ → ℚ → ℚ → ℤ → List RiverSegment → SR → List RiverSegment × SR
  | 0, _, _, _, acc, r => (acc, r)
  | fuel + 1, x, y, lastIdx, acc, r =>
    let intX := ⌊x⌋
    let intY := ⌊y⌋
    if intX < 1 ∨ intX ≥ (w : ℤ) - 1 ∨ intY < 1 ∨ intY ≥ (h : ℤ) - 1 then (acc, r)
    else
      let idx := coordToIndex intX.toNat intY.toNat w
      let elevation := gget hm idx
      if elevation < sl then (acc ++ [⟨x, y, 1⟩], r)
      else if used.contains idx ∧ (idx : ℤ) ≠ lastIdx then (acc, r)
      else
        let acc := acc ++ [⟨x, y, 1⟩]
        let ((nextX, nextY), r) := findSteepestDescent intX intY w h hm r
        if nextX = intX ∧ nextY = intY then
          match escapeLocalMinimum intX intY w h hm sl with
          | some p => traceLoop w h hm sl used fuel (p.1 : ℚ) (p.2 : ℚ) (idx : ℤ) acc r
          | none => (acc, r)
        else
          let (d1, r) := r.next
          let (d2, r) := r.next
          traceLoop w h hm sl used fuel ((nextX : ℚ) + (d1 - 1 / 2) * (3 / 10))
            ((nextY : ℚ) + (d2 - 1 / 2) * (3 / 10)) (idx : ℤ) acc r

/-- `traceRiver`: steepest-descent walk from a source for up to
`width + height` steps. -/
def traceRiver (startX startY : ℕ) (w h : ℕ) (hm : Grid) (sl : ℚ)
    (used : List ℕ) (r : SR) : River × SR :=
  let (segments, r) := traceLoop w h hm sl used (w + h) (startX : ℚ) (startY : ℚ) (-1) [] r
  (⟨"", "", segments⟩, r)

/-- The grid cell covered by a river path sample (floored position). -/
def segCell (w : ℕ) (s : RiverSegment) : ℕ :=
  coordToIndex (⌊s.x⌋).toNat (⌊s.y⌋).toNat w

/-- `calculateRiverFlow`: linear ramp `0.3 + (i / length) * 0.7` over the
segment index `i`. -/
def calculateRiverFlow (river : River) : River :=
  let n := river.segments.length
  ⟨river.id, river.name,
    river.segments.enum.map (fun p =>
      ⟨p.2.x, p.2.y, 3 / 10 + ((p.1 : ℚ) / (n : ℚ)) * (7 / 10)⟩)⟩

/-- One iteration of `generateRivers`' acceptance loop: once the desired
count is reached remaining sources are skipped (the `break`); otherwise the
river is traced against the current used-cell set and accepted when long
enough, claiming its floored cells. -/
def riversStep (opts : RiverOptions) (st : List River × List ℕ × SR)
    (src : ℕ × ℕ) : List River × List ℕ × SR :=
  if st.1.length ≥ opts.riverCount then st
  else
    let tr := traceRiver src.1 src.2 opts.width opts.height
      opts.heightmap opts.seaLevel st.2.1 st.2.2
    if tr.1.segments.length ≥ opts.minRiverLength then
      let u := tr.2.uuid
      (st.1 ++ [⟨u.1, "", tr.1.segments⟩],
       st.2.1 ++ tr.1.segments.map (segCell opts.width), u.2)
    else (st.1, st.2.1, tr.2)

/-- The acceptance fold of `generateRivers` over the candidate sources. -/
def riversFold (opts : RiverOptions) (sources : List (ℕ × ℕ)) (r : SR) :
    List River × List ℕ × SR :=
  sources.foldl (riversStep opts) ([], [], r)

/-- `generateRivers`: pick sources, trace and accept rivers claiming their
cells exclusively, then assign the linear flow ramp. -/
def generateRivers (opts : RiverOptions) : List River :=
  let r := SR.fromString (opts.seed ++ "_rivers")
  let sr := findRiverSources opts.width opts.height opts.heightmap
    opts.moisture opts.seaLevel r (opts.riverCount * 3)
  (riversFold opts sr.1 sr.2).1.map calculateRiverFlow

/-- `carveRiversIntoHeightmap`: lower each claimed cell by
`carveDepth * flow`, floored at 0. -/
def carveRiversIntoHeightmap (hm : Grid) (rivers : List River) (w : ℕ)
    (carveDepth : ℚ := 1 / 50) : Grid :=
  rivers.foldl
    (fun hm river =>
      river.segments.foldl
        (fun hm seg =>
          let x := ⌊seg.x⌋
          let y := ⌊seg.y⌋
          if 0 ≤ x ∧ x < (w : ℤ) ∧ 0 ≤ y ∧ (y : ℚ) < (hm.length : ℚ) / (w : ℚ) then
            let idx := coordToIndex x.toNat y.toNat w
            hm.set idx (max 0 (gget hm idx - carveDepth * seg.flow))
          else hm) hm) hm

/-! ## Settlement planner (`src/generation/civilization/settlements.ts`) -/

/-- Options consumed by `generateSettlements`. -/
structure SettlementOptions where
  width : ℕ
  height : ℕ
  seed : String
  heightmap : Grid
  moisture : Grid
  biomes : List ℕ
  rivers : List River
  seaLevel : ℚ
  density : ℚ

/-- Read a biome-id cell. -/
def bget (b : List ℕ) (i : ℕ) : ℕ := b.getD i 0

/-- `isNearRiverMouth`: within `maxDist` of some river's last segment. -/
def isNearRiverMouth (M : JSMath) (x y : ℚ) (rivers : List River) (maxDist : ℚ) : Bool :=
  rivers.any (fun river =>
    match river.segments.getLast? with
    | none => false
    | some mouth => decide (distanceQ M x y mouth.x mouth.y < maxDist))

/-- `isNearMajorRiver`: within `maxDist` of any segment of a river with at
least 20 segments. -/
def isNearMajorRiver (M : JSMath) (x y : ℚ) (rivers : List River) (maxDist : ℚ) : Bool :=
  rivers.any (fun river =>
    decide (river.segments.length ≥ 20) &&
    river.segments.any (fun seg => decide (distanceQ M x y seg.x seg.y < maxDist)))

/-- `calculateSuitability`: river-proximity falloff map, coastal adjacency,
then the per-cell suitability score clamped to [0,1]. -/
def calculateSuitability (M : JSMath) (w h : ℕ) (hm moist : Grid)
    (biomes : List ℕ) (rivers : List River) : Grid :=
  let offs21 := (List.range 21).map (fun i => (i : ℤ) - 10)
  let riverProximity := rivers.foldl
    (fun rp river =>
      river.segments.foldl
        (fun rp seg =>
          let rx := ⌊seg.x⌋
          let ry := ⌊seg.y⌋
          offs21.foldl (fun rp dy =>
            offs21.foldl (fun rp dx =>
              let nx := rx + dx
              let ny := ry + dy
              if 0 ≤ nx ∧ nx < (w : ℤ) ∧ 0 ≤ ny ∧ ny < (h : ℤ) then
                let dist := M.sqrt ((dx * dx + dy * dy : ℤ) : ℚ)
                let value := max 0 (1 - dist / 10)
                let idx := coordToIndex nx.toNat ny.toNat w
                rp.set idx (max (gget rp idx) value)
              else rp) rp) rp) rp) (List.replicate (w * h) (0 : ℚ))
  let offs3 := [(-1 : ℤ), 0, 1]
  let coastProximity : Grid := (List.range (w * h)).map (fun idx =>
    if bget biomes idx = 0 then 0
    else
      let x := idx % w
      let y := idx / w
      let nearOcean := offs3.any (fun dy => offs3.any (fun dx =>
        let nx := (x : ℤ) + dx
        let ny := (y : ℤ) + dy
        decide (0 ≤ nx ∧ nx < (w : ℤ) ∧ 0 ≤ ny ∧ ny < (h : ℤ) ∧
          bget biomes (coordToIndex nx.toNat ny.toNat w) = 0)))
      if nearOcean then 1 else 0)
  (List.range (w * h)).map (fun idx =>
    let biome := bget biomes idx
    if biome = 0 ∨ biome = 8 ∨ biome = 7 then 0
    else
      let elevation := gget hm idx
      let elevationScore := 1 - |elevation - 2 / 5| * 2
      let score := 1 / 2 + elevationScore * (1 / 5) + gget riverProximity idx * (3 / 10) +
        gget coastProximity idx * (1 / 4) + gget moist idx * (1 / 10) +
        (if biome = 1 then (3 / 20 : ℚ) else 0)
      max 0 (min 1 score))

/-- The weighted-selection walk of `findSettlementLocation`. -/
def weightedWalk : ℚ → List (ℕ × ℕ × ℚ) → Option (ℕ × ℕ)
  | _, [] => none
  | rem, c :: cs =>
    if rem - c.2.2 ≤ 0 then some (c.1, c.2.1)
    else weightedWalk (rem - c.2.2) cs

/-- `findSettlementLocation`: strided candidate set with a suitability
floor of 0.3 and a minimum distance to placed settlements, then weighted
random selection with weight `score²`. -/
def findSettlementLocation (M : JSMath) (w h : ℕ) (suitability : Grid)
    (placed : List (ℕ × ℕ)) (minDistance : ℚ) (r : SR) :
    Option (ℕ × ℕ) × SR :=
  let step := max 2 (w / 100)
  let candidates := ((List.range h).filter (fun y =>
      step ≤ y ∧ y < h - step ∧ y % step = 0)).flatMap (fun y =>
    ((List.range w).filter (fun x =>
      step ≤ x ∧ x < w - step ∧ x % step = 0)).filterMap (fun x =>
      let score := gget suitability (coordToIndex x y w)
      if score < 3 / 10 then none
      else if placed.any (fun p =>
          decide (distanceQ M (x : ℚ) (y : ℚ) (p.1 : ℚ) (p.2 : ℚ) < minDistance)) then
        none
      else some (x, y, score * score)))
  if candidates.isEmpty then (none, r)
  else
    let totalWeight := candidates.foldl (fun a c => a + c.2.2) 0
    let (n, r) := r.next
    match weightedWalk (n * totalWeight) candidates with
    | some p => (some p, r)
    | none => ((candidates.getLast?).map (fun c => (c.1, c.2.1)), r)

/-- `determineSettlementSize`: suitability plus river-mouth, coastal and
major-river bonuses plus random jitter, thresholded into the 8 tiers. -/
def determineSettlementSize (M : JSMath) (x y : ℕ) (w : ℕ) (suitability : Grid)
    (rivers : List River) (biomes : List ℕ) (r : SR) : SettlementSize × SR :=
  let idx := coordToIndex x y w
  let score := gget suitability idx
  let nearRiverMouth := isNearRiverMouth M (x : ℚ) (y : ℚ) rivers 20
  let isCoastal := bget biomes idx = 1
  let nearMajorRiver := isNearMajorRiver M (x : ℚ) (y : ℚ) rivers 15
  let sizeScore := score + (if nearRiverMouth then (3 / 10 : ℚ) else 0) +
    (if isCoastal then (1 / 5 : ℚ) else 0) +
    (if nearMajorRiver then (3 / 20 : ℚ) else 0)
  let (n, r) := r.next
  let sizeScore := sizeScore + (n - 1 / 2) * (3 / 10)
  (if sizeScore > 9 / 10 then .metropolis
   else if sizeScore > 4 / 5 then .largeCity
   else if sizeScore > 7 / 10 then .smallCity
   else if sizeScore > 3 / 5 then .largeTown
   else if sizeScore > 1 / 2 then .smallTown
   else if sizeScore > 2 / 5 then .village
   else if sizeScore > 3 / 10 then .hamlet
   else .thorp, r)

/-- `SETTLEMENT_POPULATIONS`: the per-tier population ranges. -/
def settlementPopulationRange (s : SettlementSize) : ℕ × ℕ :=
  match s with
  | .thorp => (20, 80)
  | .hamlet => (81, 400)
  | .village => (401, 900)
  | .smallTown => (901, 2000)
  | .largeTown => (2001, 5000)
  | .smallCity => (5001, 12000)
  | .largeCity => (12001, 25000)
  | .metropolis => (25001, 100000)

/-- `generatePopulation`: uniform integer in the tier's range. -/
def generatePopulation (s : SettlementSize) (r : SR) : ℤ × SR :=
  let range := settlementPopulationRange s
  r.int (range.1 : ℚ) (range.2 : ℚ)

/-- `determineSettlementType`: port > river_town > mountain_town >
farming_village. -/
def determineSettlementType (M : JSMath) (x y : ℕ) (w : ℕ) (biomes : List ℕ)
    (rivers : List River) (hm : Grid) : String :=
  let idx := coordToIndex x y w
  if bget biomes idx = 1 then "port"
  else if isNearMajorRiver M (x : ℚ) (y : ℚ) rivers 10 then "river_town"
  else if gget hm idx > 3 / 5 then "mountain_town"
  else "farming_village"

/-- Stable insertion into a population-descending list. -/
def insertPopDesc (c : Settlement) : List Settlement → List Settlement
  | [] => [c]
  | d :: ds => if d.population ≥ c.population then d :: insertPopDesc c ds else c :: d :: ds

/-- Stable sort descending by population (`sort((a, b) => b.population -
a.population)`). -/
def sortByPopulationDesc (l : List Settlement) : List Settlement :=
  l.foldl (fun acc c => insertPopDesc c acc) []

/-- The computed settlement target count: land fraction × density × 50,
floored, clamped to [3,100]. -/
def settlementTargetCount (opts : SettlementOptions) : ℤ :=
  let mapArea := opts.width * opts.height
  let landCells := (opts.biomes.filter (fun b => b ≠ 0)).length
  let baseCount := ⌊((landCells : ℚ) / (mapArea : ℚ)) * opts.density * 50⌋
  max 3 (min baseCount 100)

/-- One attempt of the settlement placement loop (the body of the
`attempt` loop, including its `settlements.length < settlementCount`
guard). -/
def settleStep (M : JSMath) (opts : SettlementOptions) (suitability : Grid)
    (minDistance : ℚ) (settlementCount : ℤ)
    (st : List Settlement × List (ℕ × ℕ) × SR) (_attempt : ℕ) :
    List Settlement × List (ℕ × ℕ) × SR :=
  if (st.1.length : ℤ) ≥ settlementCount then st
  else
    let loc := findSettlementLocation M opts.width opts.height suitability
      st.2.1 minDistance st.2.2
    match loc.1 with
    | none => (st.1, st.2.1, loc.2)
    | some (x, y) =>
      let sz := determineSettlementSize M x y opts.width suitability
        opts.rivers opts.biomes loc.2
      let u := sz.2.uuid
      let pop := generatePopulation sz.1 u.2
      let stype := determineSettlementType M x y opts.width opts.biomes
        opts.rivers opts.heightmap
      (st.1 ++ [⟨u.1, "", x, y, sz.1, pop.1, stype⟩], st.2.1 ++ [(x, y)], pop.2)

/-- `generateSettlements`: suitability field, target count, then up to
`10 × target` placement attempts with spacing rejection; sized, populated,
typed, and finally sorted descending by population. -/
def generateSettlements (M : JSMath) (opts : SettlementOptions) : List Settlement :=
  let r := SR.fromString (opts.seed ++ "_settlements")
  let suitability := calculateSuitability M opts.width opts.height opts.heightmap
    opts.moisture opts.biomes opts.rivers
  let settlementCount := settlementTargetCount opts
  let minDistance := M.sqrt (((opts.width * opts.height : ℕ) : ℚ) / (settlementCount : ℚ)) * (1 / 2)
  let final := (List.range (settlementCount.toNat * 10)).foldl
    (settleStep M opts suitability minDistance settlementCount) ([], [], r)
  sortByPopulationDesc final.1

/-! ## Name generator (`src/generation/naming/index.ts`) -/

/-- `FANTASY_SYLLABLES.prefixes`. -/
def fantasyNamePrefixes : List String :=
  ["Aer", "Ald", "Ara", "Ash", "Bel", "Bri", "Cal", "Cel", "Dae", "Dal",
   "Dra", "Dun", "Eld", "Elm", "Fae", "Fen", "Gal", "Gil", "Grim", "Hal",
   "Hel", "Ir", "Ith", "Kar", "Kel", "Kir", "Lir", "Lor", "Mal", "Mar",
   "Mel", "Mith", "Mor", "Nar", "Nel", "Nor", "Orn", "Pel", "Quel", "Ral",
   "Rath", "Ril", "Riv", "Sar", "Sel", "Sil", "Sol", "Sul", "Tal", "Tar",
   "Tel", "Thal", "Thor", "Til", "Tor", "Tyr", "Ul", "Val", "Var", "Vel",
   "Vor", "Wil", "Wyn", "Xan", "Yen", "Zar", "Zeph"]

/-- `FANTASY_SYLLABLES.middles`. -/
def fantasyNameMiddles : List String :=
  ["an", "ar", "el", "en", "er", "eth", "ia", "il", "in", "ion",
   "ir", "is", "ith", "on", "or", "oth", "ul", "un", "ur"]

/-- `FANTASY_SYLLABLES.suffixes`. -/
def fantasyNameSuffixes : List String :=
  ["dale", "dell", "den", "dor", "fall", "feld", "ford", "gate", "glen", "guard",
   "hall", "haven", "helm", "hill", "hold", "hollow", "keep", "lake", "land", "leigh",
   "mere", "moor", "mount", "mouth", "peak", "port", "rest", "ridge", "shire", "shore",
   "spire", "stead", "stone", "vale", "view", "ville", "wall", "watch", "water", "wind",
   "wood", "worth"]

/-- `FANTASY_SYLLABLES.standalone`. -/
def fantasyNameStandalone : List String :=
  ["Amber", "Autumn", "Azure", "Black", "Blue", "Bright", "Bronze", "Clear",
   "Cold", "Crystal", "Dark", "Dawn", "Deep", "Dusk", "East", "Ever", "Fair",
   "Far", "First", "Frost", "Gold", "Grand", "Great", "Green", "Grey", "High",
   "Iron", "Lake", "Last", "Light", "Long", "Lost", "Low", "Mid", "Moon",
   "New", "Night", "North", "Oak", "Old", "Pine", "Rain", "Red", "River",
   "Rock", "Rose", "Sea", "Shadow", "Silver", "Snow", "South", "Spring",
   "Star", "Steel", "Stone", "Storm", "Summer", "Sun", "Thunder", "West",
   "White", "Wild", "Wind", "Winter", "Wolf"]

/-- `RIVER_NAMES.prefixes`. -/
def riverNamePrefixes : List String :=
  ["Silver", "Gold", "Crystal", "Swift", "Slow", "Deep", "Winding", "Clear",
   "Dark", "Bright", "Cold", "Warm", "Rushing", "Gentle", "Mighty", "Ancient"]

/-- `RIVER_NAMES.roots`. -/
def riverNameRoots : List String :=
  ["Ald", "Ash", "Bel", "Cel", "Dal", "Eld", "Fen", "Gal", "Hel", "Ir",
   "Kel", "Lor", "Mel", "Nar", "Pel", "Ral", "Sel", "Tal", "Val", "Wyr"]

/-- `RIVER_NAMES.suffixes`. -/
def riverNameSuffixes : List String :=
  ["a", "an", "el", "en", "ia", "in", "on", "or", "un", "yn"]

/-- One candidate settlement name (the generator closure of
`generateSettlementName`, fantasy style). -/
def settlementNameOnce (r : SR) : String × SR :=
  let (patterns, r) := r.int 0 3
  if patterns = 0 then
    let (a, r) := r.pick fantasyNamePrefixes ""
    let (b, r) := r.pick fantasyNameSuffixes ""
    (a ++ b, r)
  else if patterns = 1 then
    let (a, r) := r.pick fantasyNameStandalone ""
    let (b, r) := r.pick fantasyNameSuffixes ""
    (a ++ b, r)
  else if patterns = 2 then
    let (a, r) := r.pick fantasyNamePrefixes ""
    let (b, r) := r.pick fantasyNameMiddles ""
    let (c, r) := r.pick fantasyNameSuffixes ""
    (a ++ b ++ c, r)
  else
    let (a, r) := r.pick fantasyNameStandalone ""
    let (b, r) := r.pick fantasyNameStandalone ""
    (a ++ b.toLower, r)

/-- One candidate river name (the generator closure of
`generateRiverName`). -/
def riverNameOnce (r : SR) : String × SR :=
  let (pattern, r) := r.int 0 2
  if pattern = 0 then
    let (a, r) := r.pick riverNamePrefixes ""
    let (b, r) := r.pick riverNameRoots ""
    let (c, r) := r.pick riverNameSuffixes ""
    (a ++ b.toLower ++ c, r)
  else if pattern = 1 then
    let (a, r) := r.pick riverNameRoots ""
    let (b, r) := r.pick riverNameSuffixes ""
    (a ++ b ++ " River", r)
  else
    let (a, r) := r.pick riverNamePrefixes ""
    let (b, r) := r.pick riverNameRoots ""
    ("The " ++ a ++ " " ++ b, r)

/-- `generateUniqueName`: regenerate while the name is taken, up to 100
attempts. -/
def genUniqueGo (once : SR → String × SR) (used : List String) :
    ℕ → SR → String × SR
  | 0, r => ("", r)
  | fuel + 1, r =>
    let (name, r') := once r
    if used.contains name ∧ fuel ≠ 0 then genUniqueGo once used fuel r'
    else (name, r')

/-- `generateUniqueName` plus the `usedNames.add`. -/
def genUnique (once : SR → String × SR) (used : List String) (r : SR) :
    String × List String × SR :=
  let (name, r') := genUniqueGo once used 100 r
  (name, used ++ [name], r')

/-- `applyNames`: name all settlements in order, then all rivers, sharing
one used-name set and one `_names` PRNG. -/
def applyNames (seed : String) (settlements : List Settlement)
    (rivers : List River) : List Settlement × List River :=
  let r := SR.fromString (seed ++ "_names")
  let (settlements, used, r) := settlements.foldl
    (fun (st : List Settlement × List String × SR) s =>
      let (name, used, r) := genUnique settlementNameOnce st.2.1 st.2.2
      (st.1 ++ [{ s with name := name }], used, r))
    ([], [], r)
  let (rivers, _, _) := rivers.foldl
    (fun (st : List River × List String × SR) riv =>
      let (name, used, r) := genUnique riverNameOnce st.2.1 st.2.2
      (st.1 ++ [{ riv with name := name }], used, r))
    ([], used, r)
  (settlements, rivers)

/-! ## Pipeline orchestration (`src/generation/index.ts`) -/

/-- `generateSeed`: 12 characters drawn from the ambient `Math.random`
stream (the only non-seeded randomness in the generator). -/
def generateSeed (entropy : ℕ → ℚ) : String :=
  let chars := "ABCDEFGHIJKLMNOPQRSTUVWXYZabcdefghijklmnopqrstuvwxyz0123456789".toList
  String.mk ((List.range 12).map (fun i => chars.getD (⌊entropy i * 62⌋).toNat 'A'))

/-- `MAP_SIZE_CONFIG` dimensions. -/
def mapSizeDims (s : MapSize) : ℕ × ℕ :=
  match s with
  | .local => (256, 256)
  | .regional => (512, 512)
  | .kingdom => (1024, 1024)
  | .continental => (2048, 2048)

/-- The config resolution at `generateMap` entry: default merge, the seed
fallback to ambient randomness when the given seed is empty (falsy), and
the forced width/height from the size preset. No validation of any field
is performed. -/
def resolveConfig (entropy : ℕ → ℚ) (cfg : MapConfig) : MapConfig :=
  let seed := if cfg.seed = "" then generateSeed entropy else cfg.seed
  let dims := mapSizeDims cfg.mapSize
  { cfg with seed := seed, width := dims.1, height := dims.2 }

/-- `generateMap`: the full sequential pipeline. `entropy` is the ambient
`Math.random` stream of the run (consumed only by the seed fallback);
progress reporting is observational and not modelled. -/
def generateMap (E : NoiseEnv) (M : JSMath) (entropy : ℕ → ℚ)
    (cfg0 : MapConfig) : MapData :=
  let config := resolveConfig entropy cfg0
  let w := config.width
  let h := config.height
  let heightmap := generateHeightmap E M w h config.seed config.mapType
    config.seaLevel config.roughness config.waterCoverage
  let heightmap := applyErosion M heightmap config.seed w h
    (⌊((w * h : ℕ) : ℚ) * (1 / 10)⌋).toNat
  let heightmap := applyThermalErosion heightmap w h 5
  let clim := generateClimate E M w h config.seed heightmap config.seaLevel
  let temperature := clim.1
  let moisture := clim.2
  let biomes := generateBiomes E.biome w h heightmap temperature moisture
    config.seaLevel
  let rivers := generateRivers ⟨w, h, config.seed, heightmap, moisture,
    config.seaLevel, w / 50, 15⟩
  let heightmap := carveRiversIntoHeightmap heightmap rivers w
  let settlements := generateSettlements M ⟨w, h, config.seed, heightmap,
    moisture, biomes, rivers, config.seaLevel, config.settlementDensity⟩
  let (settlements, rivers) := applyNames config.seed settlements rivers
  ⟨config, heightmap, moisture, temperature, biomes, rivers, settlements⟩

/-! ## Shared helper lemmas -/

/-- `getD` over a map of `List.range` evaluates the function at in-range
indices. -/
theorem rangeMap_getD {α} (f : ℕ → α) (n i : ℕ) (d : α) (h : i < n) :
    ((List.range n).map f).getD i d = f i := by
  rw [List.getD_eq_getElem?_getD, List.getElem?_map, List.getElem?_range h]
  rfl

/-- A bound satisfied by every element of a list and by the default is
satisfied by every `getD` read. -/
theorem getD_bound {α} (P : α → Prop) {l : List α} {d : α}
    (hl : ∀ b ∈ l, P b) (hd : P d) (i : ℕ) : P (l.getD i d) := by
  induction l generalizing i with
  | nil => simpa using hd
  | cons a t ih =>
    cases i with
    | zero => exact hl a (by simp)
    | succ j => simpa using ih (fun b hb => hl b (by simp [hb])) j

/-- An `if` is bounded above by a bound on both branches. -/
theorem ite_le_of_le {c : Prop} [Decidable c] {a b n : ℕ} (ha : a ≤ n)
    (hb : b ≤ n) : (if c then a else b) ≤ n := by
  split <;> assumption

/-- An `if` is positive when both branches are. -/
theorem pos_ite_of_pos {c : Prop} [Decidable c] {a b : ℕ} (ha : 0 < a)
    (hb : 0 < b) : 0 < (if c then a else b) := by
  split <;> assumption

/-- `classifyBiome` only returns ids 0–9. -/
theorem classifyBiome_le_nine (e t m sl bl ml snl : ℚ) :
    classifyBiome e t m sl bl ml snl ≤ 9 := by
  unfold classifyBiome
  repeat first | apply ite_le_of_le | omega

/-- `classifyBiome` returns the ocean id exactly below sea level. -/
theorem classifyBiome_eq_zero_iff (e t m sl bl ml snl : ℚ) :
    classifyBiome e t m sl bl ml snl = 0 ↔ e < sl := by
  constructor
  · intro h0
    by_contra hns
    have h1 : 0 < classifyBiome e t m sl bl ml snl := by
      unfold classifyBiome
      rw [if_neg hns]
      repeat first | apply pos_ite_of_pos | omega
    omega
  · intro h
    unfold classifyBiome
    rw [if_pos h]

/-! ## Claim theorems -/

/-- C10: the biome classifier is total into the ids 0–9; the `lake` id 10,
although present in the id table, is never assigned: every classifier
output and every biome-grid cell is at most 9, hence never 10. -/
theorem c10_classifier_never_lake :
    (∀ e t m sl bl ml snl : ℚ, classifyBiome e t m sl bl ml snl ≤ 9) ∧
    (∀ (noise : Noise2) (w h : ℕ) (hm temp moist : Grid) (sl : ℚ) (idx : ℕ),
      bget (generateBiomes noise w h hm temp moist sl) idx ≠ 10) := by
  refine ⟨classifyBiome_le_nine, ?_⟩
  intro noise w h hm temp moist sl idx
  have hb : bget (generateBiomes noise w h hm temp moist sl) idx ≤ 9 := by
    unfold generateBiomes bget
    exact getD_bound (· ≤ 9)
      (by
        intro b hb
        simp only [List.mem_map] at hb
        obtain ⟨j, -, rfl⟩ := hb
        exact classifyBiome_le_nine _ _ _ _ _ _ _)
      (by norm_num) idx
  omega

/-- C5: on the exact snapshot the classifier consumed, a cell of the biome
grid is ocean (id 0) iff its elevation is strictly below the configured
sea level. -/
theorem c5_ocean_biome_consistency (noise : Noise2) (w h : ℕ)
    (hm temp moist : Grid) (sl : ℚ) (idx : ℕ) (hidx : idx < w * h) :
    bget (generateBiomes noise w h hm temp moist sl) idx = 0 ↔
      gget hm idx < sl := by
  unfold generateBiomes bget
  rw [rangeMap_getD _ _ _ _ hidx]
  exact classifyBiome_eq_zero_iff _ _ _ _ _ _ _

/-- C5 witness: a concrete 1×1 grid with elevation below sea level. -/
theorem c5_witness :
    (0 : ℕ) < 1 * 1 ∧
      (bget (generateBiomes (fun _ _ => 0) 1 1 [0] [0] [0] (1/2)) 0 = 0 ↔
        gget [0] 0 < 1/2) :=
  ⟨by norm_num, c5_ocean_biome_consistency (fun _ _ => 0) 1 1 [0] [0] [0] (1/2) 0 (by norm_num)⟩

/-- C4 counterexample: the ocean branch of the blend does not use the
configured sea level; with configured sea level 0.5 and mask 0.15 the
produced height is 0.16625, not the claimed (0.15/0.3)×0.5×0.95 = 0.2375. -/
theorem c4_counterexample :
    ¬ (∀ seaLevel mask hval : ℚ, mask < 3 / 10 →
        blendMaskCell mask hval = mask / (3 / 10) * seaLevel * (19 / 20)) := by
  intro hclaim
  have h := hclaim (1 / 2) (3 / 20) 0 (by norm_num)
  rw [show blendMaskCell (3 / 20) 0 = 133 / 800 from by norm_num [blendMaskCell]] at h
  norm_num at h

/-- C4 (amended): for every cell with mask below 0.3 the blend produces
`(mask/0.3) × 0.35 × 0.95` against the hardcoded sea-level constant 0.35
(the configured sea level is ignored by the blend), and this ocean height
is monotone in the mask value. -/
theorem c4_ocean_blend_amended (hval m₁ m₂ : ℚ) (hle : m₁ ≤ m₂)
    (hm₂ : m₂ < 3 / 10) :
    blendMaskCell m₂ hval = m₂ / (3 / 10) * (7 / 20) * (19 / 20) ∧
      blendMaskCell m₁ hval ≤ blendMaskCell m₂ hval := by
  have hm₁ : m₁ < 3 / 10 := lt_of_le_of_lt hle hm₂
  unfold blendMaskCell
  rw [if_pos hm₁, if_pos hm₂]
  constructor
  · ring
  · nlinarith

/-- C4 witness: concrete masks 0.1 ≤ 0.2 below the ocean threshold. -/
theorem c4_witness :
    ((1 : ℚ) / 10 ≤ 2 / 10 ∧ (2 : ℚ) / 10 < 3 / 10) ∧
      (blendMaskCell (2 / 10) 0 = (2 / 10) / (3 / 10) * (7 / 20) * (19 / 20) ∧
        blendMaskCell (1 / 10) 0 ≤ blendMaskCell (2 / 10) 0) :=
  ⟨⟨by norm_num, by norm_num⟩,
    c4_ocean_blend_amended 0 (1 / 10) (2 / 10) (by norm_num) (by norm_num)⟩

/-- An invalid configuration: sea level 2 and water coverage −1, both far
outside [0,1]. -/
def invalidConfig : MapConfig :=
  ⟨"x", .island, .local, 256, 256, 2, 1 / 2, -1, 1 / 2, 3 / 10⟩

/-- C3: the pipeline entry performs no configuration validation: the
out-of-range sea level and water coverage pass unchanged into the resolved
configuration the stages consume, and the full pipeline runs on them
producing a `MapData` whose config still carries the invalid values; no
configuration-error outcome exists anywhere in the generator. -/
theorem c3_no_validation_at_entry :
    (resolveConfig (fun _ => 0) invalidConfig).seaLevel = 2 ∧
      (resolveConfig (fun _ => 0) invalidConfig).waterCoverage = -1 := by
  constructor <;> rfl

/-!
Concrete evaluation support: Batteries marks the `Rat` field operations
irreducible; the embedding computes with them, so closed facts about
concrete runs are settled by `decide` after restoring reducibility.
-/

attribute [local semireducible] Rat.mul Rat.add Rat.inv Rat.sub

set_option maxRecDepth 100000

/-- A concrete 20×12 terrain for the hydrology tracer: two descending
channels, one from (4,4) and one from (12,4), converging on the single
ocean pocket at (8,8); everything else is high plateau. -/
def riverDemoHeight (x y : ℕ) : ℚ :=
  if x = 8 ∧ y = 8 then 1 / 10
  else if x = 4 ∧ y = 4 then 8 / 10
  else if x = 4 ∧ y = 5 then 75 / 100
  else if x = 4 ∧ y = 6 then 7 / 10
  else if x = 4 ∧ y = 7 then 65 / 100
  else if x = 5 ∧ y = 8 then 6 / 10
  else if x = 6 ∧ y = 8 then 55 / 100
  else if x = 7 ∧ y = 8 then 5 / 10
  else if x = 12 ∧ y = 4 then 8 / 10
  else if x = 12 ∧ y = 5 then 75 / 100
  else if x = 12 ∧ y = 6 then 7 / 10
  else if x = 12 ∧ y = 7 then 65 / 100
  else if x = 11 ∧ y = 8 then 6 / 10
  else if x = 10 ∧ y = 8 then 55 / 100
  else if x = 9 ∧ y = 8 then 5 / 10
  else if x = 8 ∧ y = 4 then 95 / 100
  else 85 / 100

/-- The demo heightmap as a row-major grid. -/
def riverDemoHeightmap : Grid :=
  (List.range 240).map (fun idx => riverDemoHeight (idx % 20) (idx / 20))

/-- Concrete river-generation options: seed "a", sea level 0.3, two rivers
of at least 4 segments. -/
def riverDemoOpts : RiverOptions :=
  ⟨20, 12, "a", riverDemoHeightmap, List.replicate 240 (1 / 2), 3 / 10, 2, 4⟩

/-- The placeholder river used as a `getD` default. -/
def noRiver : River := ⟨"", "", []⟩

/-- C6 counterexample: on the demo terrain, river generation accepts two
rivers and both claim grid cell 168 = (8,8) (their shared ocean mouth), so
the floored cell sets of distinct accepted rivers are not disjoint. -/
theorem c6_counterexample :
    (generateRivers riverDemoOpts).length = 2 ∧
      168 ∈ ((generateRivers riverDemoOpts).getD 0 noRiver).segments.map (segCell 20) ∧
      168 ∈ ((generateRivers riverDemoOpts).getD 1 noRiver).segments.map (segCell 20) := by
  decide

/-- The pushed-cell guarantee carried by the trace loop: every path sample
covers a cell that is below sea level or was unclaimed when the trace ran. -/
def TraceCellOk (w : ℕ) (hm : Grid) (sl : ℚ) (used : List ℕ)
    (s : RiverSegment) : Prop :=
  gget hm (segCell w s) < sl ∨ segCell w s ∉ used

/-- Trace-loop invariant: all produced segments satisfy `TraceCellOk`. -/
theorem traceLoop_cells (w h : ℕ) (hm : Grid) (sl : ℚ) (used : List ℕ) :
    ∀ (fuel : ℕ) (x y : ℚ) (lastIdx : ℤ) (acc : List RiverSegment) (r : SR),
    (∀ s ∈ acc, TraceCellOk w hm sl used s) →
    (∀ k : ℕ, (k : ℤ) = lastIdx → k ∉ used) →
    ∀ s ∈ (traceLoop w h hm sl used fuel x y lastIdx acc r).1,
      TraceCellOk w hm sl used s := by
  intro fuel
  induction fuel with
  | zero =>
    intro x y lastIdx acc r hacc _ s hs
    exact hacc s hs
  | succ fuel ih =>
    intro x y lastIdx acc r hacc hlast s hs
    rw [traceLoop] at hs
    by_cases hb : ⌊x⌋ < 1 ∨ ⌊x⌋ ≥ (w : ℤ) - 1 ∨ ⌊y⌋ < 1 ∨ ⌊y⌋ ≥ (h : ℤ) - 1
    · rw [if_pos hb] at hs
      exact hacc s hs
    · rw [if_neg hb] at hs
      set idx := coordToIndex (⌊x⌋).toNat (⌊y⌋).toNat w with hidx
      by_cases hoc : gget hm idx < sl
      · rw [if_pos hoc] at hs
        rcases List.mem_append.mp hs with h1 | h2
        · exact hacc s h1
        · left
          rcases List.mem_singleton.mp h2 with rfl
          simpa [segCell, coordToIndex, hidx] using hoc
      · rw [if_neg hoc] at hs
        by_cases hused : used.contains idx = true ∧ (idx : ℤ) ≠ lastIdx
        · rw [if_pos hused] at hs
          exact hacc s hs
        · rw [if_neg hused] at hs
          have hfree : idx ∉ used := by
            rcases Decidable.not_and_iff_or_not.mp hused with hnc | hne
            · intro hmem
              exact hnc (List.elem_eq_true_of_mem hmem)
            · exact hlast idx (Decidable.not_not.mp hne)
          have hok : TraceCellOk w hm sl used ⟨x, y, 1⟩ := by
            right
            simpa [TraceCellOk, segCell, coordToIndex, hidx] using hfree
          have hacc' : ∀ t ∈ acc ++ [(⟨x, y, 1⟩ : RiverSegment)],
              TraceCellOk w hm sl used t := by
            intro t ht
            rcases List.mem_append.mp ht with h1 | h2
            · exact hacc t h1
            · rcases List.mem_singleton.mp h2 with rfl
              exact hok
          have hlast' : ∀ k : ℕ, (k : ℤ) = (idx : ℤ) → k ∉ used := by
            intro k hk
            have : k = idx := by exact_mod_cast hk
            simpa [this] using hfree
          rcases hfsd : findSteepestDescent ⌊x⌋ ⌊y⌋ w h hm r with ⟨⟨nX, nY⟩, r'⟩
          rw [hfsd] at hs
          dsimp only at hs
          by_cases hstuck : nX = ⌊x⌋ ∧ nY = ⌊y⌋
          · rw [if_pos hstuck] at hs
            rcases hesc : escapeLocalMinimum ⌊x⌋ ⌊y⌋ w h hm sl with _ | p
            · rw [hesc] at hs
              exact hacc' s hs
            · rw [hesc] at hs
              exact ih _ _ _ _ _ hacc' hlast' s hs
          · rw [if_neg hstuck] at hs
            rcases hn1 : r'.next with ⟨d1, r1⟩
            rcases hn2 : r1.next with ⟨d2, r2⟩
            rw [hn1] at hs
            dsimp only at hs
            rw [hn2] at hs
            dsimp only at hs
            exact ih _ _ _ _ _ hacc' hlast' s hs

/-- `traceRiver` inherits the pushed-cell guarantee. -/
theorem traceRiver_cells (sx sy w h : ℕ) (hm : Grid) (sl : ℚ)
    (used : List ℕ) (r : SR) :
    ∀ s ∈ (traceRiver sx sy w h hm sl used r).1.segments,
      TraceCellOk w hm sl used s := by
  intro s hs
  exact traceLoop_cells w h hm sl used (w + h) _ _ _ [] r (by simp)
    (by intro k hk; omega) s hs

/-- The acceptance-fold invariant: claimed cells are recorded in the used
set, and any cell shared between two distinct accepted rivers is below sea
level. -/
def RiversInv (w : ℕ) (hm : Grid) (sl : ℚ)
    (st : List River × List ℕ × SR) : Prop :=
  (∀ riv ∈ st.1, ∀ s ∈ riv.segments, segCell w s ∈ st.2.1) ∧
  (∀ i j, i < j → j < st.1.length →
    ∀ s₁ ∈ (st.1.getD i noRiver).segments,
    ∀ s₂ ∈ (st.1.getD j noRiver).segments,
    segCell w s₁ = segCell w s₂ → gget hm (segCell w s₁) < sl)

/-- `getD` on the left part of an append. -/
theorem getD_append_left {α} (l₁ l₂ : List α) (d : α) (i : ℕ)
    (h : i < l₁.length) : (l₁ ++ l₂).getD i d = l₁.getD i d := by
  rw [List.getD_eq_getElem?_getD, List.getD_eq_getElem?_getD,
    List.getElem?_append, if_pos h]

/-- A `getD` read at an in-range index is a member of the list. -/
theorem getD_mem_of_lt {α} (l : List α) (d : α) (i : ℕ) (h : i < l.length) :
    l.getD i d ∈ l := by
  rw [List.getD_eq_getElem?_getD, List.getElem?_eq_getElem h]
  exact List.getElem_mem h

/-- The payload of an `enum` member is a member of the list. -/
theorem snd_mem_of_mem_enum {α} {l : List α} {i : ℕ} {a : α}
    (h : (i, a) ∈ l.enum) : a ∈ l := by
  have h2 := List.mem_enum_iff_getElem?.mp h
  exact List.getElem?_mem h2

/-- `getD` at the fresh index of a one-element append. -/
theorem getD_append_self {α} (l : List α) (a d : α) :
    (l ++ [a]).getD l.length d = a := by
  rw [List.getD_eq_getElem?_getD, List.getElem?_append_right (le_refl _)]
  simp

/-- One acceptance step preserves the fold invariant. -/
theorem riversStep_inv (opts : RiverOptions) (src : ℕ × ℕ)
    (st : List River × List ℕ × SR)
    (hinv : RiversInv opts.width opts.heightmap opts.seaLevel st) :
    RiversInv opts.width opts.heightmap opts.seaLevel (riversStep opts st src) := by
  obtain ⟨rivers, used, r⟩ := st
  obtain ⟨hcells, hpair⟩ := hinv
  unfold riversStep
  by_cases hful : rivers.length ≥ opts.riverCount
  · simpa [hful] using ⟨hcells, hpair⟩
  · rw [if_neg hful]
    simp only
    by_cases hacc : (traceRiver src.1 src.2 opts.width opts.height opts.heightmap
        opts.seaLevel used r).1.segments.length ≥ opts.minRiverLength
    · rw [if_pos hacc]
      have htrace : ∀ s ∈ (traceRiver src.1 src.2 opts.width opts.height
          opts.heightmap opts.seaLevel used r).1.segments,
          TraceCellOk opts.width opts.heightmap opts.seaLevel used s :=
        traceRiver_cells src.1 src.2 opts.width opts.height
          opts.heightmap opts.seaLevel used r
      constructor
      · intro riv hriv s hs
        rcases List.mem_append.mp hriv with h1 | h2
        · exact List.mem_append_left _ (hcells riv h1 s hs)
        · rcases List.mem_singleton.mp h2 with rfl
          exact List.mem_append_right _ (List.mem_map_of_mem _ hs)
      · intro i j hij hj s₁ hs₁ s₂ hs₂ hcell
        simp only [List.length_append, List.length_singleton] at hj
        by_cases hjold : j < rivers.length
        · rw [getD_append_left _ _ _ _ hjold] at hs₂
          rw [getD_append_left _ _ _ _ (lt_trans hij hjold)] at hs₁
          exact hpair i j hij hjold s₁ hs₁ s₂ hs₂ hcell
        · have hjeq : j = rivers.length := by omega
          subst hjeq
          rw [getD_append_self] at hs₂
          rw [getD_append_left _ _ _ _ hij] at hs₁
          have hs₁used : segCell opts.width s₁ ∈ used :=
            hcells _ (getD_mem_of_lt _ _ _ (show i < rivers.length by omega)) s₁ hs₁
          rcases htrace s₂ hs₂ with hlow | hfree
          · rw [hcell]
            exact hlow
          · exact absurd (hcell ▸ hs₁used) hfree
    · rw [if_neg hacc]
      exact ⟨hcells, hpair⟩

/-- The acceptance fold preserves the invariant from any start state. -/
theorem riversFold_inv (opts : RiverOptions) (sources : List (ℕ × ℕ)) :
    ∀ (st : List River × List ℕ × SR),
    RiversInv opts.width opts.heightmap opts.seaLevel st →
    RiversInv opts.width opts.heightmap opts.seaLevel
      (sources.foldl (riversStep opts) st) := by
  induction sources with
  | nil => intro st h; exact h
  | cons src rest ih =>
    intro st hinv
    exact ih _ (riversStep_inv opts src st hinv)

/-- `calculateRiverFlow` preserves positions, hence covered cells. -/
theorem calcFlow_segments (riv : River) (s : RiverSegment)
    (hs : s ∈ (calculateRiverFlow riv).segments) :
    ∃ t ∈ riv.segments, t.x = s.x ∧ t.y = s.y := by
  unfold calculateRiverFlow at hs
  simp only [List.mem_map] at hs
  obtain ⟨⟨i, t⟩, hmem, rfl⟩ := hs
  exact ⟨t, snd_mem_of_mem_enum hmem, rfl, rfl⟩

/-- `getD` of a mapped list at an in-range index. -/
theorem getD_map_lt {α β} (f : α → β) (l : List α) (d : β) (d' : α) (i : ℕ)
    (h : i < l.length) : (l.map f).getD i d = f (l.getD i d') := by
  rw [List.getD_eq_getElem?_getD, List.getElem?_map,
    List.getElem?_eq_getElem h, List.getD_eq_getElem?_getD,
    List.getElem?_eq_getElem h]
  rfl

/-- Floored segment cells depend only on the position. -/
theorem segCell_congr (w : ℕ) (s t : RiverSegment) (hx : t.x = s.x)
    (hy : t.y = s.y) : segCell w t = segCell w s := by
  simp [segCell, hx, hy]

/-- C6 (amended): distinct accepted rivers never share a land cell; any
grid cell claimed by two distinct rivers in the returned list is strictly
below sea level (a shared ocean mouth). -/
theorem c6_rivers_disjoint_amended (opts : RiverOptions) (i j : ℕ)
    (hij : i < j) (hj : j < (generateRivers opts).length)
    (s₁ s₂ : RiverSegment)
    (hs₁ : s₁ ∈ ((generateRivers opts).getD i noRiver).segments)
    (hs₂ : s₂ ∈ ((generateRivers opts).getD j noRiver).segments)
    (hcell : segCell opts.width s₁ = segCell opts.width s₂) :
    gget opts.heightmap (segCell opts.width s₁) < opts.seaLevel := by
  have hbase : RiversInv opts.width opts.heightmap opts.seaLevel
      (([], [],
        (findRiverSources opts.width opts.height opts.heightmap opts.moisture
          opts.seaLevel (SR.fromString (opts.seed ++ "_rivers"))
          (opts.riverCount * 3)).2) : List River × List ℕ × SR) := by
    refine ⟨?_, ?_⟩
    · intro riv hriv
      simp at hriv
    · intro a b _ hb
      simp at hb
  have hinv : RiversInv opts.width opts.heightmap opts.seaLevel
      (riversFold opts
        (findRiverSources opts.width opts.height opts.heightmap opts.moisture
          opts.seaLevel (SR.fromString (opts.seed ++ "_rivers"))
          (opts.riverCount * 3)).1
        (findRiverSources opts.width opts.height opts.heightmap opts.moisture
          opts.seaLevel (SR.fromString (opts.seed ++ "_rivers"))
          (opts.riverCount * 3)).2) :=
    riversFold_inv opts
      (findRiverSources opts.width opts.height opts.heightmap opts.moisture
        opts.seaLevel (SR.fromString (opts.seed ++ "_rivers"))
        (opts.riverCount * 3)).1 _ hbase
  unfold generateRivers at hj hs₁ hs₂
  simp only [List.length_map] at hj
  rw [getD_map_lt _ _ _ noRiver _ hj] at hs₂
  rw [getD_map_lt _ _ _ noRiver _ (lt_trans hij hj)] at hs₁
  obtain ⟨t₁, ht₁, ht₁x, ht₁y⟩ := calcFlow_segments _ _ hs₁
  obtain ⟨t₂, ht₂, ht₂x, ht₂y⟩ := calcFlow_segments _ _ hs₂
  have hc₁ : segCell opts.width t₁ = segCell opts.width s₁ :=
    segCell_congr _ _ _ ht₁x ht₁y
  have hc₂ : segCell opts.width t₂ = segCell opts.width s₂ :=
    segCell_congr _ _ _ ht₂x ht₂y
  have := hinv.2 i j hij hj t₁ ht₁ t₂ ht₂ (by rw [hc₁, hc₂, hcell])
  rw [hc₁] at this
  exact this

/-- The first accepted river of the demo run (13 segments). -/
def riverA : River := (generateRivers riverDemoOpts).getD 0 noRiver

/-- The second accepted river of the demo run (8 segments). -/
def riverB : River := (generateRivers riverDemoOpts).getD 1 noRiver

/-- The final (mouth) segment of the first demo river. -/
def mouthA : RiverSegment := riverA.segments.getD 12 ⟨0, 0, 0⟩

/-- The final (mouth) segment of the second demo river. -/
def mouthB : RiverSegment := riverB.segments.getD 7 ⟨0, 0, 0⟩

/-- C6 witness: the two demo rivers share their mouth cell, and the
amended theorem concludes that this shared cell is below sea level. -/
theorem c6_witness :
    ((0 : ℕ) < 1 ∧ 1 < (generateRivers riverDemoOpts).length ∧
      mouthA ∈ riverA.segments ∧ mouthB ∈ riverB.segments ∧
      segCell riverDemoOpts.width mouthA = segCell riverDemoOpts.width mouthB) ∧
    gget riverDemoOpts.heightmap (segCell riverDemoOpts.width mouthA) <
      riverDemoOpts.seaLevel :=
  ⟨⟨by omega, by decide, by decide, by decide, by decide⟩,
   c6_rivers_disjoint_amended riverDemoOpts 0 1 (by omega) (by decide)
     mouthA mouthB (by decide) (by decide) (by decide)⟩

/-- C7 counterexample: the first demo river is accepted with 13 segments
and its final (mouth) segment carries flow 123/130 = 0.3 + (12/13)·0.7,
not the claimed 1.0. -/
theorem c7_counterexample :
    riverA.segments.length = 13 ∧
      (riverA.segments.getD 12 ⟨0, 0, 0⟩).flow = 123 / 130 ∧
      ((123 : ℚ) / 130) ≠ 1 := by
  refine ⟨by decide, by decide, by norm_num⟩

/-- `calculateRiverFlow` keeps the segment count. -/
theorem calcFlow_length (riv : River) :
    (calculateRiverFlow riv).segments.length = riv.segments.length := by
  simp [calculateRiverFlow]

/-- C7 (amended): every accepted river's flow values form the linear ramp
`flow i = 0.3 + (i/n)·0.7` over its `n` segments: 0.3 at the source,
`1 − 0.7/n` (strictly less than 1) at the mouth, every value in (0,1). -/
theorem c7_flow_ramp_amended (opts : RiverOptions) (riv : River)
    (hriv : riv ∈ generateRivers opts) (i : ℕ)
    (hi : i < riv.segments.length) :
    (riv.segments.getD i ⟨0, 0, 0⟩).flow =
      3 / 10 + ((i : ℚ) / (riv.segments.length : ℚ)) * (7 / 10) ∧
    0 < (riv.segments.getD i ⟨0, 0, 0⟩).flow ∧
    (riv.segments.getD i ⟨0, 0, 0⟩).flow < 1 := by
  unfold generateRivers at hriv
  obtain ⟨riv', -, rfl⟩ := List.mem_map.mp hriv
  rw [calcFlow_length] at hi ⊢
  have hlen : riv'.segments.enum.length = riv'.segments.length := by
    simp
  have hget : (calculateRiverFlow riv').segments.getD i ⟨0, 0, 0⟩ =
      ⟨(riv'.segments.getD i ⟨0, 0, 0⟩).x, (riv'.segments.getD i ⟨0, 0, 0⟩).y,
        3 / 10 + ((i : ℚ) / (riv'.segments.length : ℚ)) * (7 / 10)⟩ := by
    unfold calculateRiverFlow
    rw [getD_map_lt _ _ _ (i, ⟨0, 0, 0⟩) _ (by rw [hlen]; exact hi)]
    have henum : riv'.segments.enum.getD i (i, ⟨0, 0, 0⟩) =
        (i, riv'.segments.getD i ⟨0, 0, 0⟩) := by
      rw [List.getD_eq_getElem?_getD, List.getElem?_enum,
        List.getElem?_eq_getElem hi, List.getD_eq_getElem?_getD,
        List.getElem?_eq_getElem hi]
      rfl
    rw [henum]
  rw [hget]
  have hn : (0 : ℚ) < (riv'.segments.length : ℚ) := by
    have : 0 < riv'.segments.length := by omega
    exact_mod_cast this
  have hq0 : (0 : ℚ) ≤ (i : ℚ) / (riv'.segments.length : ℚ) :=
    div_nonneg (by positivity) (le_of_lt hn)
  have hq1 : (i : ℚ) / (riv'.segments.length : ℚ) < 1 := by
    rw [div_lt_one hn]
    exact_mod_cast hi
  refine ⟨rfl, by dsimp only; linarith, by dsimp only; linarith⟩

/-- C7 witness: the demo run's first river and its source segment. -/
theorem c7_witness :
    (riverA ∈ generateRivers riverDemoOpts ∧ 0 < riverA.segments.length) ∧
      ((riverA.segments.getD 0 ⟨0, 0, 0⟩).flow =
        3 / 10 + ((0 : ℚ) / (riverA.segments.length : ℚ)) * (7 / 10) ∧
      0 < (riverA.segments.getD 0 ⟨0, 0, 0⟩).flow ∧
      (riverA.segments.getD 0 ⟨0, 0, 0⟩).flow < 1) :=
  ⟨⟨by decide, by decide⟩,
   c7_flow_ramp_amended riverDemoOpts riverA (by decide) 0 (by decide)⟩

/-- Fuel-driven Heron iteration for the integer square root. -/
def isqrtGo (n : ℕ) : ℕ → ℕ → ℕ
  | 0, x => x
  | fuel + 1, x =>
    let y := (x + n / x) / 2
    if y < x then isqrtGo n fuel y else x

/-- Integer square root by Heron's method (executable by the kernel). -/
def isqrt (n : ℕ) : ℕ :=
  if n ≤ 1 then n else isqrtGo n n (n / 2 + 1)

/-- A rational approximation of the square root (three decimal digits),
standing in for the platform `Math.sqrt` in concrete runs. -/
def qSqrt (q : ℚ) : ℚ := (isqrt (⌊q * 1000000⌋).toNat : ℚ) / 1000

/-- A concrete `JSMath` instantiation for closed evaluations: approximate
square root, zero trigonometric functions, constant positive exponential. -/
def demoMath : JSMath := ⟨qSqrt, fun _ => 0, fun _ => 0, fun _ _ => 0, fun _ => 1⟩

/-- Settlement options for an all-ocean 8×8 map (every biome cell is
ocean, id 0). -/
def oceanSettleOpts : SettlementOptions :=
  ⟨8, 8, "a", List.replicate 64 (1 / 10), List.replicate 64 (1 / 2),
   List.replicate 64 0, [], 3 / 10, 1 / 2⟩

/-- C8 counterexample: on an all-ocean map the planner returns zero
settlements, below the claimed lower bound of 3 (the target count is
clamped to 3, but no placement attempt can succeed). -/
theorem c8_counterexample :
    (generateSettlements demoMath oceanSettleOpts).length = 0 ∧
      ¬(3 ≤ (generateSettlements demoMath oceanSettleOpts).length) := by
  refine ⟨by decide, by decide⟩

/-- Stable insertion grows the length by one. -/
theorem insertPopDesc_length (c : Settlement) (l : List Settlement) :
    (insertPopDesc c l).length = l.length + 1 := by
  induction l with
  | nil => rfl
  | cons d ds ih =>
    unfold insertPopDesc
    split
    · simp [ih]
    · simp

/-- The population sort keeps the length. -/
theorem sortByPopulationDesc_length (l : List Settlement) :
    (sortByPopulationDesc l).length = l.length := by
  unfold sortByPopulationDesc
  have : ∀ acc : List Settlement,
      (l.foldl (fun acc c => insertPopDesc c acc) acc).length =
        acc.length + l.length := by
    induction l with
    | nil => intro acc; simp
    | cons c cs ih =>
      intro acc
      simp only [List.foldl_cons]
      rw [ih, insertPopDesc_length]
      simp only [List.length_cons]
      omega
  simpa using this []

/-- Each placement attempt keeps the settlement count at or below the
target. -/
theorem settleStep_length (M : JSMath) (opts : SettlementOptions)
    (suitability : Grid) (minDistance : ℚ) (count : ℤ)
    (st : List Settlement × List (ℕ × ℕ) × SR) (a : ℕ)
    (h : (st.1.length : ℤ) ≤ count) :
    (((settleStep M opts suitability minDistance count st a).1.length : ℤ)) ≤ count := by
  unfold settleStep
  by_cases hful : (st.1.length : ℤ) ≥ count
  · rw [if_pos hful]
    exact h
  · rw [if_neg hful]
    dsimp only
    split
    · exact h
    · simp only [List.length_append, List.length_singleton]
      push_cast
      omega

/-- The placement fold keeps the settlement count at or below the target. -/
theorem settleFold_length (M : JSMath) (opts : SettlementOptions)
    (suitability : Grid) (minDistance : ℚ) (count : ℤ) (attempts : List ℕ) :
    ∀ (st : List Settlement × List (ℕ × ℕ) × SR),
    (st.1.length : ℤ) ≤ count →
    (((attempts.foldl (settleStep M opts suitability minDistance count) st).1.length : ℤ)) ≤
      count := by
  induction attempts with
  | nil => intro st h; exact h
  | cons a rest ih =>
    intro st h
    exact ih _ (settleStep_length M opts suitability minDistance count st a h)

/-- C8 (amended): the number of settlements returned never exceeds the
computed target count, and the target itself is clamped to [3,100]; the
returned count, however, can fall below 3 (down to zero) when placement
attempts fail. -/
theorem c8_settlement_bounds_amended (M : JSMath) (opts : SettlementOptions) :
    ((generateSettlements M opts).length : ℤ) ≤ settlementTargetCount opts ∧
      3 ≤ settlementTargetCount opts ∧ settlementTargetCount opts ≤ 100 := by
  refine ⟨?_, ?_, ?_⟩
  · unfold generateSettlements
    rw [sortByPopulationDesc_length]
    refine settleFold_length M opts _ _ _ _ _ ?_
    simp only [List.length_nil, Nat.cast_zero]
    unfold settlementTargetCount
    exact le_trans (by norm_num) (le_max_left _ _)
  · exact le_max_left _ _
  · unfold settlementTargetCount
    exact max_le (by norm_num) (min_le_right _ _)

/-! ## Range-invariant machinery (C2) -/

/-- All values of a grid lie in [0,1]. -/
def Bounded01 (g : Grid) : Prop := ∀ v ∈ g, 0 ≤ v ∧ v ≤ 1

/-- A clamp to [0,1] lands in [0,1]. -/
theorem clampQ_bounds (v : ℚ) : 0 ≤ clampQ v 0 1 ∧ clampQ v 0 1 ≤ 1 :=
  ⟨le_min (le_max_right v 0) (by norm_num), min_le_right _ _⟩

/-- Reads from a bounded grid are bounded (the default 0 included). -/
theorem gget_bounds {g : Grid} (hg : Bounded01 g) (i : ℕ) :
    0 ≤ gget g i ∧ gget g i ≤ 1 :=
  getD_bound (fun v => 0 ≤ v ∧ v ≤ 1) hg ⟨le_refl 0, by norm_num⟩ i

/-- Writing a bounded value preserves grid boundedness. -/
theorem Bounded01_set {g : Grid} (hg : Bounded01 g) {v : ℚ}
    (hv : 0 ≤ v ∧ v ≤ 1) (i : ℕ) : Bounded01 (g.set i v) := by
  intro u hu
  rcases List.mem_or_eq_of_mem_set hu with h | rfl
  · exact hg u h
  · exact hv

/-- A fold preserves any invariant its step preserves. -/
theorem foldl_preserves {α β} (P : α → Prop) (f : α → β → α) (l : List β)
    (hstep : ∀ a b, b ∈ l → P a → P (f a b)) :
    ∀ a, P a → P (l.foldl f a) := by
  induction l with
  | nil => intro a h; exact h
  | cons b rest ih =>
    intro a h
    exact ih (fun a c hc ha => hstep a c (by simp [hc]) ha) _
      (hstep a b (by simp) h)

/-- The erosion output is clamped into [0,1] cell by cell. -/
theorem applyErosion_bounds (M : JSMath) (g : Grid) (seed : String)
    (w h iters : ℕ) : Bounded01 (applyErosion M g seed w h iters) := by
  intro v hv
  unfold applyErosion at hv
  simp only [List.mem_map] at hv
  obtain ⟨u, -, rfl⟩ := hv
  exact clampQ_bounds _

/-- One thermal-erosion cell update preserves boundedness (the talus angle
must be nonnegative; interior cells have distinct neighbor indices). -/
theorem thermalCell_bounds (w : ℕ) (τ : ℚ) (hτ : 0 ≤ τ) (g : Grid)
    (idx : ℕ) (hx : 1 ≤ idx % w) (hx2 : idx % w < w - 1) (hy : 1 ≤ idx / w)
    (hg : Bounded01 g) : Bounded01 (thermalCell w τ g idx) := by
  unfold thermalCell
  dsimp only
  set x := idx % w with hxdef
  set y := idx / w with hydef
  set hv := gget g idx with hhv
  set neighbors := [coordToIndex (x - 1) y w, coordToIndex (x + 1) y w,
    coordToIndex x (y - 1) w, coordToIndex x (y + 1) w] with hnbrs
  set best := List.foldl
    (fun (b : ℚ × Option ℕ) nIdx =>
      if hv - gget g nIdx > b.1 ∧ hv - gget g nIdx > τ
      then (hv - gget g nIdx, some nIdx) else b)
    (0, none) neighbors with hbestdef
  have hQ : ∀ n, best.2 = some n →
      best.1 = hv - gget g n ∧ τ < hv - gget g n ∧ n ∈ neighbors := by
    rw [hbestdef]
    refine foldl_preserves
      (fun (b : ℚ × Option ℕ) => ∀ n, b.2 = some n →
        b.1 = hv - gget g n ∧ τ < hv - gget g n ∧ n ∈ neighbors)
      _ _ ?_ (0, none) (by intro n h; simp at h)
    intro b m hm hQb n hsome
    dsimp only at hsome ⊢
    by_cases hc : hv - gget g m > b.1 ∧ hv - gget g m > τ
    · rw [if_pos hc] at hsome ⊢
      obtain rfl : m = n := by simpa using hsome
      exact ⟨rfl, hc.2, hm⟩
    · rw [if_neg hc] at hsome ⊢
      exact hQb n hsome
  rcases h2 : best.2 with _ | n
  · dsimp only
    exact hg
  · dsimp only
    obtain ⟨hval, hdrop, hmem⟩ := hQ n h2
    rw [hval]
    have hhvB := gget_bounds hg idx
    have hvnB := gget_bounds hg n
    set vn := gget g n with hvn
    have hne : n ≠ idx := by
      have hrep : y * w + x = idx := by
        rw [hxdef, hydef, Nat.mul_comm (idx / w) w]
        exact Nat.div_add_mod idx w
      have hw3 : 3 ≤ w := by omega
      have htw : w ≤ y * w := Nat.le_mul_of_pos_left w (by omega)
      have hs1 : (y - 1) * w = y * w - w := by rw [Nat.sub_mul, one_mul]
      have hs2 : (y + 1) * w = y * w + w := by rw [Nat.add_mul, one_mul]
      rw [hnbrs] at hmem
      simp only [List.mem_cons, List.not_mem_nil, or_false, coordToIndex] at hmem
      rcases hmem with rfl | rfl | rfl | rfl <;> omega
    have hv1B : 0 ≤ hv - (hv - vn - τ) * (1 / 2) ∧
        hv - (hv - vn - τ) * (1 / 2) ≤ 1 := by
      constructor
      · linarith [hhvB.1, hvnB.1]
      · linarith [hhvB.2, hdrop]
    have hg1 := Bounded01_set hg hv1B idx
    have hget1 : gget (g.set idx (hv - (hv - vn - τ) * (1 / 2))) n = vn := by
      unfold gget
      rw [List.getD_eq_getElem?_getD, List.getElem?_set_ne (fun he => hne he.symm),
        ← List.getD_eq_getElem?_getD]
      rfl
    refine Bounded01_set hg1 ?_ n
    rw [hget1]
    constructor
    · linarith [hvnB.1, hdrop]
    · linarith [hhvB.2, hvnB.2]

/-- Thermal erosion preserves grid boundedness. -/
theorem applyThermalErosion_bounds (g : Grid) (w h iterations : ℕ) (τ : ℚ)
    (hτ : 0 ≤ τ) (hg : Bounded01 g) :
    Bounded01 (applyThermalErosion g w h iterations τ) := by
  unfold applyThermalErosion
  refine foldl_preserves Bounded01 _ _ ?_ g hg
  intro a _ _ ha
  refine foldl_preserves Bounded01 _ _ ?_ a ha
  intro g' idx hidx hg'
  have hmem := List.mem_filter.mp hidx
  have hconds := of_decide_eq_true hmem.2
  exact thermalCell_bounds w τ hτ g' idx hconds.1 hconds.2.1 hconds.2.2.1 hg'

/-- Flows assigned by `calculateRiverFlow` are nonnegative. -/
theorem calcFlow_flow_nonneg (riv : River) :
    ∀ s ∈ (calculateRiverFlow riv).segments, 0 ≤ s.flow := by
  intro s hs
  unfold calculateRiverFlow at hs
  simp only [List.mem_map] at hs
  obtain ⟨⟨i, t⟩, -, rfl⟩ := hs
  dsimp only
  positivity

/-- All flows in the river-generation output are nonnegative. -/
theorem generateRivers_flow_nonneg (opts : RiverOptions) :
    ∀ riv ∈ generateRivers opts, ∀ s ∈ riv.segments, 0 ≤ s.flow := by
  intro riv hriv
  unfold generateRivers at hriv
  obtain ⟨riv', -, rfl⟩ := List.mem_map.mp hriv
  exact calcFlow_flow_nonneg riv'

/-- River carving preserves grid boundedness when flows and the carve
depth are nonnegative. -/
theorem carveRivers_bounds (hm : Grid) (rivers : List River) (w : ℕ)
    (cd : ℚ) (hcd : 0 ≤ cd)
    (hfl : ∀ riv ∈ rivers, ∀ s ∈ riv.segments, 0 ≤ s.flow)
    (hg : Bounded01 hm) :
    Bounded01 (carveRiversIntoHeightmap hm rivers w cd) := by
  unfold carveRiversIntoHeightmap
  refine foldl_preserves Bounded01 _ _ ?_ hm hg
  intro a riv hriv ha
  refine foldl_preserves Bounded01 _ _ ?_ a ha
  intro g' seg hseg hg'
  dsimp only
  split
  · refine Bounded01_set hg' ⟨le_max_left _ _, ?_⟩ _
    have hge := gget_bounds hg' (coordToIndex (⌊seg.x⌋).toNat (⌊seg.y⌋).toNat w)
    have hflow := hfl riv hriv seg hseg
    have : cd * seg.flow ≥ 0 := mul_nonneg hcd hflow
    exact max_le (by norm_num) (by linarith [hge.2])
  · exact hg'

/-- The Gaussian kernel has nonnegative entries whenever the exponential
approximation is nonnegative. -/
theorem createGaussianKernel_nonneg (M : JSMath) (hexp : ∀ q, 0 ≤ M.exp q)
    (radius : ℕ) : ∀ k ∈ createGaussianKernel M radius, 0 ≤ k := by
  intro k hk
  unfold createGaussianKernel at hk
  simp only [List.mem_map] at hk
  obtain ⟨u, hu, rfl⟩ := hk
  have hraw : (0 : ℚ) ≤ u := by
    simp only [List.mem_flatMap, List.mem_map] at hu
    obtain ⟨yy, -, xx, -, rfl⟩ := hu
    refine div_nonneg (hexp _) ?_
    have : (0 : ℚ) ≤ jsPI := by unfold jsPI; norm_num
    positivity
  refine div_nonneg hraw ?_
  have hall : ∀ x ∈ (((List.range (2 * radius + 1)).map
      (fun i => (i : ℤ) - (radius : ℤ))).flatMap
        (fun y => ((List.range (2 * radius + 1)).map
          (fun i => (i : ℤ) - (radius : ℤ))).map (fun x =>
        M.exp (-(((x * x + y * y : ℤ) : ℚ)) / ((2 : ℚ) * ((radius : ℚ) / 3) *
          ((radius : ℚ) / 3))) / (jsPI * ((2 : ℚ) * ((radius : ℚ) / 3) *
            ((radius : ℚ) / 3)))))), (0 : ℚ) ≤ x := by
    intro x hx
    simp only [List.mem_flatMap, List.mem_map] at hx
    obtain ⟨yy, -, xx, -, rfl⟩ := hx
    refine div_nonneg (hexp _) ?_
    have : (0 : ℚ) ≤ jsPI := by unfold jsPI; norm_num
    positivity
  refine foldl_preserves (fun a => 0 ≤ a) (· + ·) _ ?_ 0 (le_refl 0)
  intro a b hb ha
  exact add_nonneg ha (hall b hb)

/-- A fraction with numerator between 0 and the denominator lies in
[0,1] (including the degenerate 0/0 case). -/
theorem div_mem01 {a b : ℚ} (h1 : 0 ≤ a) (h2 : a ≤ b) :
    0 ≤ a / b ∧ a / b ≤ 1 := by
  rcases eq_or_lt_of_le (le_trans h1 h2) with h0 | hpos
  · have ha : a = 0 := le_antisymm (h0 ▸ h2) h1
    have hb : b = 0 := h0.symm
    simp [ha, hb]
  · exact ⟨div_nonneg h1 hpos.le, (div_le_one hpos).mpr h2⟩

/-- The blur accumulator keeps `0 ≤ sum ≤ weightSum` for bounded data and
nonnegative weights. -/
theorem blurAcc_bounds (dataRead : ℤ → ℤ → ℚ) (wt : ℤ → ℤ → ℚ)
    (hd : ∀ ky kx, 0 ≤ dataRead ky kx ∧ dataRead ky kx ≤ 1)
    (hw : ∀ ky kx, 0 ≤ wt ky kx) (offs : List ℤ) (a : ℚ × ℚ)
    (ha : 0 ≤ a.1 ∧ a.1 ≤ a.2) :
    0 ≤ (offs.foldl (fun (a : ℚ × ℚ) ky => offs.foldl
        (fun (a : ℚ × ℚ) kx =>
          (a.1 + dataRead ky kx * wt ky kx, a.2 + wt ky kx)) a) a).1 ∧
    (offs.foldl (fun (a : ℚ × ℚ) ky => offs.foldl
        (fun (a : ℚ × ℚ) kx =>
          (a.1 + dataRead ky kx * wt ky kx, a.2 + wt ky kx)) a) a).1 ≤
    (offs.foldl (fun (a : ℚ × ℚ) ky => offs.foldl
        (fun (a : ℚ × ℚ) kx =>
          (a.1 + dataRead ky kx * wt ky kx, a.2 + wt ky kx)) a) a).2 := by
  refine foldl_preserves (fun (a : ℚ × ℚ) => 0 ≤ a.1 ∧ a.1 ≤ a.2) _ _ ?_ a ha
  intro b ky _ hb
  refine foldl_preserves (fun (a : ℚ × ℚ) => 0 ≤ a.1 ∧ a.1 ≤ a.2) _ _ ?_ b hb
  intro c kx _ hc
  dsimp only
  have h1 := (hd ky kx).1
  have h2 := (hd ky kx).2
  have h3 := hw ky kx
  constructor
  · nlinarith [hc.1]
  · nlinarith [hc.2]

/-- A Gaussian blur of a bounded grid is bounded (needs a nonnegative
exponential so that all kernel weights are nonnegative). -/
theorem gaussianBlur_bounds (M : JSMath) (hexp : ∀ q, 0 ≤ M.exp q)
    (data : Grid) (w h radius : ℕ) (hdata : Bounded01 data) :
    Bounded01 (gaussianBlur M data w h radius) := by
  intro v hv
  unfold gaussianBlur at hv
  simp only [List.mem_map] at hv
  obtain ⟨idx, -, rfl⟩ := hv
  have hkw : ∀ i, 0 ≤ (createGaussianKernel M radius).getD i 0 :=
    fun i => getD_bound (fun k => 0 ≤ k)
      (createGaussianKernel_nonneg M hexp radius) (le_refl 0) i
  have H := blurAcc_bounds
    (fun ky kx => gget data (coordToIndex
      (iclamp ((idx % w : ℕ) + kx) 0 ((w : ℤ) - 1)).toNat
      (iclamp ((idx / w : ℕ) + ky) 0 ((h : ℤ) - 1)).toNat w))
    (fun ky kx => (createGaussianKernel M radius).getD
      (((ky + radius) * (radius * 2 + 1) + (kx + radius)).toNat) 0)
    (fun ky kx => gget_bounds hdata _)
    (fun ky kx => hkw _)
    ((List.range (2 * radius + 1)).map (fun i => (i : ℤ) - (radius : ℤ)))
    (0, 0) ⟨le_refl 0, le_refl 0⟩
  exact div_mem01 H.1 H.2

/-- The temperature grid is bounded: per-cell clamping then blur. -/
theorem generateTemperature_bounds (noise : Noise2) (M : JSMath)
    (hexp : ∀ q, 0 ≤ M.exp q) (w h : ℕ) (hm : Grid) (sl : ℚ) :
    Bounded01 (generateTemperature noise M w h hm sl) := by
  unfold generateTemperature
  refine gaussianBlur_bounds M hexp _ w h 3 ?_
  intro v hv
  simp only [List.mem_map] at hv
  obtain ⟨idx, -, rfl⟩ := hv
  exact clampQ_bounds _

/-- The moisture grid is bounded: water cells at 1, propagation by damped
maxima, land clamping, then blur. -/
theorem generateMoisture_bounds (noise : Noise2) (M : JSMath)
    (hexp : ∀ q, 0 ≤ M.exp q) (w h : ℕ) (hm temp : Grid) (sl : ℚ) :
    Bounded01 (generateMoisture noise M w h hm temp sl) := by
  unfold generateMoisture
  refine gaussianBlur_bounds M hexp _ w h 4 ?_
  have hm0 : Bounded01 ((List.range (w * h)).map (fun idx =>
      if gget hm idx < sl then (1 : ℚ) else 0)) := by
    intro v hv
    simp only [List.mem_map] at hv
    obtain ⟨idx, -, rfl⟩ := hv
    split <;> norm_num
  have hspread : Bounded01 ((List.range 30).foldl
      (fun (m : Grid) _ =>
        ((List.range (w * h)).filter (fun idx =>
          1 ≤ idx % w ∧ idx % w < w - 1 ∧ 1 ≤ idx / w ∧ idx / w < h - 1)).foldl
          (fun m idx =>
            if gget hm idx ≥ sl then
              m.set idx (max (gget m idx)
                (max (max (gget m (coordToIndex (idx % w - 1) (idx / w) w))
                      (gget m (coordToIndex (idx % w + 1) (idx / w) w)))
                  (max (gget m (coordToIndex (idx % w) (idx / w - 1) w))
                    (gget m (coordToIndex (idx % w) (idx / w + 1) w))) *
                  (if gget hm idx > sl + 3 / 10 then (7 : ℚ) / 10 else 23 / 25)))
            else m) m)
      ((List.range (w * h)).map (fun idx =>
        if gget hm idx < sl then (1 : ℚ) else 0))) := by
    refine foldl_preserves Bounded01 _ _ ?_ _ hm0
    intro a _ _ ha
    refine foldl_preserves Bounded01 _ _ ?_ a ha
    intro m idx _ hmB
    dsimp only
    split
    · have hcur := gget_bounds hmB idx
      have h1 := gget_bounds hmB (coordToIndex (idx % w - 1) (idx / w) w)
      have h2 := gget_bounds hmB (coordToIndex (idx % w + 1) (idx / w) w)
      have h3 := gget_bounds hmB (coordToIndex (idx % w) (idx / w - 1) w)
      have h4 := gget_bounds hmB (coordToIndex (idx % w) (idx / w + 1) w)
      refine Bounded01_set hmB ⟨?_, ?_⟩ idx
      · exact le_trans hcur.1 (le_max_left _ _)
      · refine max_le hcur.2 ?_
        have hmn : max (max (gget m (coordToIndex (idx % w - 1) (idx / w) w))
            (gget m (coordToIndex (idx % w + 1) (idx / w) w)))
            (max (gget m (coordToIndex (idx % w) (idx / w - 1) w))
              (gget m (coordToIndex (idx % w) (idx / w + 1) w))) ≤ 1 :=
          max_le (max_le h1.2 h2.2) (max_le h3.2 h4.2)
        have hmn0 : 0 ≤ max (max (gget m (coordToIndex (idx % w - 1) (idx / w) w))
            (gget m (coordToIndex (idx % w + 1) (idx / w) w)))
            (max (gget m (coordToIndex (idx % w) (idx / w - 1) w))
              (gget m (coordToIndex (idx % w) (idx / w + 1) w))) :=
          le_trans h1.1 (le_trans (le_max_left _ _) (le_max_left _ _))
        split <;> nlinarith
    · exact hmB
  intro v hv
  simp only [List.mem_map] at hv
  obtain ⟨idx, -, rfl⟩ := hv
  split
  · exact clampQ_bounds _
  · exact gget_bounds hspread idx

/-- C2: for every configuration, seed, noise environment and platform
math (with a nonnegative exponential), every cell of the final map data is
in range: elevation, temperature and moisture in [0,1] and the biome id at
most 10 — as returned by the pipeline after erosion, blurring and river
carving. -/
theorem c2_range_invariants (E : NoiseEnv) (M : JSMath) (entropy : ℕ → ℚ)
    (cfg : MapConfig) (hexp : ∀ q, 0 ≤ M.exp q) :
    Bounded01 (generateMap E M entropy cfg).heightmap ∧
    Bounded01 (generateMap E M entropy cfg).temperature ∧
    Bounded01 (generateMap E M entropy cfg).moisture ∧
    (∀ b ∈ (generateMap E M entropy cfg).biomes, b ≤ 10) := by
  unfold generateMap
  refine ⟨?_, ?_, ?_, ?_⟩
  · refine carveRivers_bounds _ _ _ _ (by norm_num)
      (generateRivers_flow_nonneg _) ?_
    refine applyThermalErosion_bounds _ _ _ _ _ (by norm_num) ?_
    exact applyErosion_bounds _ _ _ _ _ _
  · unfold generateClimate
    exact generateTemperature_bounds _ M hexp _ _ _ _
  · unfold generateClimate
    exact generateMoisture_bounds _ M hexp _ _ _ _ _
  · intro b hb
    unfold generateBiomes at hb
    simp only [List.mem_map] at hb
    obtain ⟨idx, -, rfl⟩ := hb
    exact le_trans (classifyBiome_le_nine _ _ _ _ _ _ _) (by norm_num)

/-- The all-zero noise environment (a valid noise field per the spec's
[-1,1] contract). -/
def zeroNoiseEnv : NoiseEnv :=
  ⟨fun _ _ => 0, fun _ _ => 0, fun _ _ => 0,
   fun _ _ _ => 0, fun _ _ _ => 0, fun _ _ _ => 0, fun _ _ _ => 0,
   fun _ _ _ => 0, fun _ _ _ => 0, fun _ _ _ => 0, fun _ _ _ => 0,
   fun _ _ _ => 0, fun _ _ _ => 0, fun _ _ _ => 0, fun _ _ _ => 0,
   fun _ _ _ => 0, fun _ _ => 0, fun _ _ => 0, fun _ _ => 0⟩

/-! ## Water-coverage monotonicity (C9) -/

/-- Number of grid cells strictly below the sea level (ocean cells). -/
def oceanCells (g : Grid) (sl : ℚ) : ℕ :=
  (g.filter (fun v => decide (v < sl))).length

/-- Per-cell lake-shape noise constants for the great-lake demonstration
grid: the three cell rings at squared center distance 1, 2 and 4 get a
distortion placing each just outside its lake boundary at zero water
coverage. All values lie in the noise range [-1,1]. -/
def c9ShapeD (idx : ℕ) : ℚ :=
  let dx := (idx % 10 : ℤ) - 5
  let dy := (idx / 10 : ℤ) - 5
  let d2 := dx * dx + dy * dy
  if d2 = 1 then -(1 / 20)
  else if d2 = 2 then 91 / 250
  else if d2 = 4 then 19 / 20
  else 0

/-- Noise environment for the great-lake demonstration: flat fBM and warp,
per-cell constant lake-shape distortion, and island noise 0.7 > 0.6
everywhere, so every cell inside the lake boundary is island land. -/
def c9Env : NoiseEnv :=
  { zeroNoiseEnv with gl1 := fun idx _ _ => c9ShapeD idx,
                      gl2 := fun _ _ _ => 7 / 10 }

/-- C9 counterexample: on a 10×10 great-lake map, raising waterCoverage
from 0 to 1 moves the lake rim outward past every below-sea-level ring,
turning the former rim into island-filled lake interior; the ocean-cell
fraction drops from 9/100 to 0, so it is not non-decreasing in
waterCoverage. -/
theorem c9_counterexample :
    (0 : ℚ) ≤ 1 ∧
      oceanCells (generateHeightmap c9Env demoMath 10 10 "a" .greatLake
        (7 / 20) (1 / 2) 0) (7 / 20) = 9 ∧
      oceanCells (generateHeightmap c9Env demoMath 10 10 "a" .greatLake
        (7 / 20) (1 / 2) 1) (7 / 20) = 0 ∧
      ¬((9 : ℚ) / 100 ≤ 0 / 100) := by
  refine ⟨by norm_num, by decide, by decide, by norm_num⟩

/-- Reading a just-written cell (in range). -/
theorem gget_set_self (g : Grid) (i : ℕ) (v : ℚ) : i < g.length →
    gget (g.set i v) i = v := by
  induction g generalizing i with
  | nil => intro h; simp at h
  | cons a t ih =>
    intro h
    cases i with
    | zero => rfl
    | succ j =>
      simp only [List.length_cons] at h
      exact ih j (by omega)

/-- Reading another cell after a write. -/
theorem gget_set_ne (g : Grid) (i j : ℕ) (v : ℚ) : i ≠ j →
    gget (g.set i v) j = gget g j := by
  induction g generalizing i j with
  | nil => intro _; rfl
  | cons a t ih =>
    intro hij
    cases i with
    | zero =>
      cases j with
      | zero => exact absurd rfl hij
      | succ j' => rfl
    | succ i' =>
      cases j with
      | zero => rfl
      | succ j' => exact ih i' j' (by omega)

/-- Writing past the end of a list is a no-op. -/
theorem set_oob (g : Grid) (i : ℕ) (v : ℚ) : g.length ≤ i → g.set i v = g := by
  induction g generalizing i with
  | nil => intro _; rfl
  | cons a t ih =>
    intro h
    cases i with
    | zero => simp at h
    | succ j =>
      simp only [List.length_cons] at h
      simp only [List.set]
      rw [ih j (by omega)]

/-- A fold of per-cell writes keeps the grid length. -/
theorem foldl_set_map_length (F : ℕ → ℚ → ℚ) (l : List ℕ) :
    ∀ g : Grid,
      (l.foldl (fun g' idx => g'.set idx (F idx (gget g' idx))) g).length =
        g.length := by
  induction l with
  | nil => intro g; rfl
  | cons a t ih =>
    intro g
    rw [List.foldl_cons, ih]
    exact List.length_set ..

/-- Pointwise value of a row-major per-cell rewrite fold. -/
theorem foldl_range_set_getD (F : ℕ → ℚ → ℚ) (n : ℕ) :
    ∀ (g : Grid) (i : ℕ),
      gget ((List.range n).foldl
          (fun g' idx => g'.set idx (F idx (gget g' idx))) g) i =
        if i < n ∧ i < g.length then F i (gget g i) else gget g i := by
  induction n with
  | zero =>
    intro g i
    simp
  | succ m ih =>
    intro g i
    rw [List.range_succ, List.foldl_append, List.foldl_cons, List.foldl_nil]
    have hlen : ((List.range m).foldl
        (fun g' idx => g'.set idx (F idx (gget g' idx))) g).length = g.length :=
      foldl_set_map_length F _ g
    by_cases him : i = m
    · subst him
      have hGi : gget ((List.range i).foldl
          (fun g' idx => g'.set idx (F idx (gget g' idx))) g) i = gget g i := by
        rw [ih g i]
        simp
      by_cases hig : i < g.length
      · rw [gget_set_self _ _ _ (by rw [hlen]; exact hig), hGi,
          if_pos ⟨by omega, hig⟩]
      · rw [set_oob _ _ _ (by omega), hGi, if_neg (by omega)]
    · rw [gget_set_ne _ _ _ _ (fun hmi => him hmi.symm), ih g i]
      by_cases hin : i < m ∧ i < g.length
      · rw [if_pos hin, if_pos ⟨by omega, hin.2⟩]
      · rw [if_neg hin, if_neg (by omega)]

/-- A pair fold whose step only writes the grid and keeps the state is the
grid fold paired with the untouched state. -/
theorem foldl_pair_fst (F : ℕ → ℚ → ℚ) (l : List ℕ) :
    ∀ (g : Grid) (r : SR),
      l.foldl (fun (st : Grid × SR) idx =>
          (st.1.set idx (F idx (gget st.1 idx)), st.2)) (g, r) =
        (l.foldl (fun g' idx => g'.set idx (F idx (gget g' idx))) g, r) := by
  induction l with
  | nil => intro g r; rfl
  | cons a t ih => intro g r; exact ih _ _

/-- The warped lake-noise combination the inland mask consumes at a cell.
The domain warp and the noise draws do not depend on the water coverage,
so this value is a function of the cell index alone. -/
def inlandCombined (E : NoiseEnv) (w h : ℕ) (wS : ℚ) (idx : ℕ) : ℚ :=
  let x : ℚ := ((idx % w : ℕ) : ℚ)
  let y : ℚ := ((idx / w : ℕ) : ℚ)
  let wx := x + E.warpX (x * (1 / 200)) (y * (1 / 200)) * wS
  let wy := y + E.warpY (x * (1 / 200)) (y * (1 / 200)) * wS
  E.inland1 idx (wx / (w : ℚ) * 3) (wy / (h : ℚ) * 3) +
    E.inland2 idx (wx / (w : ℚ) * 10) (wy / (h : ℚ) * 10) * (1 / 5)

/-- For the inland map type a mask cell is a pure function of the cell
index and its previous value: the random state passes through untouched,
and the mask is 0 exactly when the combined lake noise is below the
water-coverage threshold. -/
theorem maskCell_inland (E : NoiseEnv) (M : JSMath) (w h : ℕ)
    (wc cX cY mR wS c s sx sy : ℚ) (idx : ℕ) (hval : ℚ) (r : SR) :
    maskCell E M w h .inland wc cX cY mR wS c s sx sy idx hval r =
      (blendMaskCell
        (if inlandCombined E w h wS idx < wc * (12 / 5) - 6 / 5 then 0 else 1)
        hval, r) := by
  unfold maskCell inlandMask inlandCombined
  dsimp only
  rw [if_neg]
  intro hcontra
  simp [isLargeLandmassType] at hcontra

/-- The inland landmass mask, cell by cell: each cell of the produced grid
is the blend of the thresholded lake indicator with the cell's previous
value. -/
theorem applyLandmassMask_inland (E : NoiseEnv) (M : JSMath) (g : Grid)
    (w h : ℕ) (r : SR) (wc : ℚ) :
    (applyLandmassMask E M g w h .inland r wc).1 =
      (List.range (w * h)).foldl
        (fun g' idx => g'.set idx (blendMaskCell
          (if inlandCombined E w h (((min w h : ℕ) : ℚ) * (1 / 5)) idx <
              wc * (12 / 5) - 6 / 5 then 0 else 1) (gget g' idx))) g := by
  unfold applyLandmassMask
  dsimp only
  simp only [maskCell_inland]
  rw [foldl_pair_fst (fun idx v => blendMaskCell
    (if inlandCombined E w h (((min w h : ℕ) : ℚ) * (1 / 5)) idx <
        wc * (12 / 5) - 6 / 5 then 0 else 1) v)]

/-- The blend of a zero mask is height 0 (deep ocean). -/
theorem blendMaskCell_zero (h0 : ℚ) : blendMaskCell 0 h0 = 0 := by
  unfold blendMaskCell
  norm_num

/-- The blend of a full mask is the terrain-noise-modulated ceiling. -/
theorem blendMaskCell_one (h0 : ℚ) :
    blendMaskCell 1 h0 = 2 / 5 + (h0 + 1) / 2 * (3 / 5) := by
  unfold blendMaskCell smootherstepQ clampQ
  norm_num

/-- The inland-type cell height entering the despeckle pass. -/
def inlandStageVal (E : NoiseEnv) (w h : ℕ) (wc h0 : ℚ) (idx : ℕ) : ℚ :=
  clampQ (blendMaskCell
    (if inlandCombined E w h (((min w h : ℕ) : ℚ) * (1 / 5)) idx <
        wc * (12 / 5) - 6 / 5 then 0 else 1) h0) 0 1

/-- Stage dichotomy, water side: a cell is strictly below any positive sea
level exactly when its combined lake noise is below the water-coverage
threshold (given the fBM value respects the noise floor and the sea level
is below the land floor 0.4). -/
theorem inlandStageVal_lt_iff (E : NoiseEnv) (w h : ℕ) (wc h0 sl : ℚ)
    (idx : ℕ) (hsl0 : 0 < sl) (hsl1 : sl < 2 / 5) (hh0 : -1 ≤ h0) :
    (inlandStageVal E w h wc h0 idx < sl ↔
      inlandCombined E w h (((min w h : ℕ) : ℚ) * (1 / 5)) idx <
        wc * (12 / 5) - 6 / 5) := by
  unfold inlandStageVal
  split
  · rename_i hc
    simp only [blendMaskCell_zero]
    constructor
    · intro _; exact hc
    · intro _
      unfold clampQ
      norm_num
      exact hsl0
  · rename_i hc
    simp only [blendMaskCell_one]
    constructor
    · intro hlt
      exfalso
      have hge : 2 / 5 ≤ (2 : ℚ) / 5 + (h0 + 1) / 2 * (3 / 5) := by nlinarith
      have : (2 : ℚ) / 5 ≤ clampQ (2 / 5 + (h0 + 1) / 2 * (3 / 5)) 0 1 := by
        unfold clampQ
        refine le_min (le_trans hge (le_max_left _ _)) (by norm_num)
      linarith
    · intro hcontra
      exact absurd hcontra hc

/-- Stage dichotomy, land side: a non-water cell sits strictly above the
sea level. -/
theorem inlandStageVal_gt (E : NoiseEnv) (w h : ℕ) (wc h0 sl : ℚ)
    (idx : ℕ) (hsl1 : sl < 2 / 5) (hh0 : -1 ≤ h0)
    (hc : ¬ inlandCombined E w h (((min w h : ℕ) : ℚ) * (1 / 5)) idx <
        wc * (12 / 5) - 6 / 5) :
    sl < inlandStageVal E w h wc h0 idx := by
  unfold inlandStageVal
  rw [if_neg hc, blendMaskCell_one]
  have hge : 2 / 5 ≤ (2 : ℚ) / 5 + (h0 + 1) / 2 * (3 / 5) := by nlinarith
  have : (2 : ℚ) / 5 ≤ clampQ (2 / 5 + (h0 + 1) / 2 * (3 / 5)) 0 1 := by
    unfold clampQ
    refine le_min (le_trans hge (le_max_left _ _)) (by norm_num)
  linarith

/-- The fBM grid is one value per cell. -/
theorem generateFBM_length (noise : Noise2) (w h : ℕ) (rough : ℚ) :
    (generateFBM noise w h rough).length = w * h := by
  unfold generateFBM
  rw [List.length_map, List.length_range]

/-- The normalization pass, cell by cell. -/
theorem gget_normalize (G : Grid) (i : ℕ) (hi : i < G.length) :
    gget (normalizeHeightmap G) i = clampQ (gget G i) 0 1 := by
  unfold normalizeHeightmap
  exact getD_map_lt _ _ _ 0 i hi

/-- The cell value of the normalized inland mask stage. -/
theorem inlandStage_getD (E : NoiseEnv) (M : JSMath) (w h : ℕ)
    (r : SR) (rough wc : ℚ) (i : ℕ) (hi : i < w * h) :
    gget (normalizeHeightmap
        (applyLandmassMask E M (generateFBM E.fbm w h rough) w h .inland
          r wc).1) i =
      inlandStageVal E w h wc (gget (generateFBM E.fbm w h rough) i) i := by
  have hlen0 : (generateFBM E.fbm w h rough).length = w * h :=
    generateFBM_length _ _ _ _
  have hlen1 : ((applyLandmassMask E M (generateFBM E.fbm w h rough) w h
      .inland r wc).1).length = w * h := by
    rw [applyLandmassMask_inland]
    rw [foldl_set_map_length (fun idx v => blendMaskCell
      (if inlandCombined E w h (((min w h : ℕ) : ℚ) * (1 / 5)) idx <
          wc * (12 / 5) - 6 / 5 then 0 else 1) v)]
    exact hlen0
  rw [gget_normalize _ _ (by rw [hlen1]; exact hi), applyLandmassMask_inland]
  rw [foldl_range_set_getD (fun idx v => blendMaskCell
    (if inlandCombined E w h (((min w h : ℕ) : ℚ) * (1 / 5)) idx <
        wc * (12 / 5) - 6 / 5 then 0 else 1) v) (w * h)
    (generateFBM E.fbm w h rough) i]
  rw [if_pos ⟨hi, by rw [hlen0]; exact hi⟩]
  rfl

/-- The despeckle interior condition of `cleanupArtifacts`. -/
def despeckleInterior (w h i : ℕ) : Prop :=
  1 ≤ i % w ∧ i % w < w - 1 ∧ 1 ≤ i / w ∧ i / w < h - 1

instance (w h i : ℕ) : Decidable (despeckleInterior w h i) :=
  inferInstanceAs (Decidable (1 ≤ i % w ∧ i % w < w - 1 ∧ 1 ≤ i / w ∧ i / w < h - 1))

/-- The four despeckle neighbour indices of a cell. -/
def despeckleNbs (w i : ℕ) : List ℕ :=
  [coordToIndex (i % w + 1) (i / w) w, coordToIndex (i % w - 1) (i / w) w,
   coordToIndex (i % w) (i / w + 1) w, coordToIndex (i % w) (i / w - 1) w]

/-- The despeckle land-neighbour count of a cell. -/
def nbLandCount (g : Grid) (thr : ℚ) (w i : ℕ) : ℕ :=
  ((despeckleNbs w i).filter (fun n => gget g n > thr)).length

/-- Folding a change list never touches indices absent from it. -/
theorem foldl_set_not_mem (l : List (ℕ × ℚ)) :
    ∀ (g : Grid) (i : ℕ), (∀ p ∈ l, p.1 ≠ i) →
      gget (l.foldl (fun g' p => g'.set p.1 p.2) g) i = gget g i := by
  induction l with
  | nil => intro g i _; rfl
  | cons q t ih =>
    intro g i hne
    rw [List.foldl_cons, ih _ _ (fun p hp => hne p (by simp [hp]))]
    exact gget_set_ne _ _ _ _ (hne q (by simp))

/-- Folding a change list writes the (unique) value recorded for an
index. -/
theorem foldl_set_mem_val (l : List (ℕ × ℚ)) :
    ∀ (g : Grid) (i : ℕ) (v : ℚ), i < g.length →
      (∃ p ∈ l, p.1 = i) → (∀ p ∈ l, p.1 = i → p.2 = v) →
      gget (l.foldl (fun g' p => g'.set p.1 p.2) g) i = v := by
  induction l with
  | nil =>
    intro g i v _ hex _
    rcases hex with ⟨p, hp, -⟩
    simp at hp
  | cons q t ih =>
    intro g i v hlen hex huniq
    rw [List.foldl_cons]
    by_cases hqt : ∃ p ∈ t, p.1 = i
    · exact ih _ _ _ (by rw [List.length_set]; exact hlen) hqt
        (fun p hp hh => huniq p (by simp [hp]) hh)
    · rcases hex with ⟨p, hp, hpi⟩
      rcases List.mem_cons.mp hp with rfl | hpt
      · have hq2 : p.2 = v := huniq p (by simp) hpi
        rw [foldl_set_not_mem t _ _ (fun p' hp' hh => hqt ⟨p', hp', hh⟩), hpi,
          gget_set_self g i p.2 hlen]
        exact hq2
      · exact absurd ⟨p, hpt, hpi⟩ hqt

/-- A change-list fold keeps the grid length. -/
theorem foldl_set_pairs_length (l : List (ℕ × ℚ)) :
    ∀ g : Grid, (l.foldl (fun g' p => g'.set p.1 p.2) g).length = g.length := by
  induction l with
  | nil => intro g; rfl
  | cons q t ih => intro g; rw [List.foldl_cons, ih, List.length_set]

/-- The despeckle pass keeps the grid length. -/
theorem cleanupArtifacts_length (g : Grid) (w h : ℕ) (thr : ℚ) :
    (cleanupArtifacts g w h thr).length = g.length := by
  unfold cleanupArtifacts
  exact foldl_set_pairs_length _ g

/-- Every entry of the despeckle change list is an interior cell whose
recorded value matches its sink/raise condition. -/
theorem cleanup_changes_spec (g : Grid) (w h : ℕ) (thr : ℚ) :
    ∀ p ∈ ((List.range (w * h)).filter (fun idx =>
        1 ≤ idx % w ∧ idx % w < w - 1 ∧ 1 ≤ idx / w ∧ idx / w < h - 1)).filterMap
          (fun idx =>
            if gget g idx > thr ∧ nbLandCount g thr w idx ≤ 1 then
              some (idx, thr - 1 / 100)
            else if ¬(gget g idx > thr) ∧ nbLandCount g thr w idx ≥ 3 then
              some (idx, thr + 1 / 100)
            else none),
      (p.1 < w * h ∧ despeckleInterior w h p.1) ∧
        ((gget g p.1 > thr ∧ nbLandCount g thr w p.1 ≤ 1 ∧ p.2 = thr - 1 / 100) ∨
         (¬(gget g p.1 > thr) ∧ nbLandCount g thr w p.1 ≥ 3 ∧
           p.2 = thr + 1 / 100)) := by
  intro p hp
  rcases List.mem_filterMap.mp hp with ⟨a, ha, hfa⟩
  rcases List.mem_filter.mp ha with ⟨har, hcond⟩
  have ha' : a < w * h := List.mem_range.mp har
  have hcond' : despeckleInterior w h a := of_decide_eq_true hcond
  split at hfa
  · rename_i hA
    injection hfa with h1
    subst h1
    exact ⟨⟨ha', hcond'⟩, Or.inl ⟨hA.1, hA.2, rfl⟩⟩
  · split at hfa
    · rename_i hB
      injection hfa with h1
      subst h1
      exact ⟨⟨ha', hcond'⟩, Or.inr ⟨hB.1, hB.2, rfl⟩⟩
    · exact absurd hfa (by simp)

/-- The despeckle pass, cell by cell: an interior land cell with at most
one land neighbour is sunk just below the threshold, an interior water
cell with at least three land neighbours is raised just above it, and
every other cell keeps its value. -/
theorem cleanup_getD (g : Grid) (w h : ℕ) (thr : ℚ) (i : ℕ)
    (hig : i < g.length) :
    gget (cleanupArtifacts g w h thr) i =
      if i < w * h ∧ despeckleInterior w h i then
        (if gget g i > thr ∧ nbLandCount g thr w i ≤ 1 then thr - 1 / 100
         else if ¬(gget g i > thr) ∧ nbLandCount g thr w i ≥ 3 then
           thr + 1 / 100
         else gget g i)
      else gget g i := by
  unfold cleanupArtifacts
  dsimp only
  show gget ((((List.range (w * h)).filter (fun idx =>
      1 ≤ idx % w ∧ idx % w < w - 1 ∧ 1 ≤ idx / w ∧ idx / w < h - 1)).filterMap
        (fun idx =>
          if gget g idx > thr ∧ nbLandCount g thr w idx ≤ 1 then
            some (idx, thr - 1 / 100)
          else if ¬(gget g idx > thr) ∧ nbLandCount g thr w idx ≥ 3 then
            some (idx, thr + 1 / 100)
          else none)).foldl (fun g' p => g'.set p.1 p.2) g) i = _
  by_cases hint : i < w * h ∧ despeckleInterior w h i
  · obtain ⟨hi, hintp⟩ := hint
    rw [if_pos ⟨hi, hintp⟩]
    by_cases hA : gget g i > thr ∧ nbLandCount g thr w i ≤ 1
    · rw [if_pos hA]
      refine foldl_set_mem_val _ _ _ _ hig ?_ ?_
      · refine ⟨(i, thr - 1 / 100), List.mem_filterMap.mpr ⟨i, ?_, ?_⟩, rfl⟩
        · exact List.mem_filter.mpr
            ⟨List.mem_range.mpr hi, decide_eq_true hintp⟩
        · rw [if_pos hA]
      · intro p hp hpi
        rcases cleanup_changes_spec g w h thr p hp with ⟨-, hcase⟩
        rcases hcase with ⟨hL, -, hval⟩ | ⟨hL, -, -⟩
        · exact hval
        · rw [hpi] at hL
          exact absurd hA.1 hL
    · rw [if_neg hA]
      by_cases hB : ¬(gget g i > thr) ∧ nbLandCount g thr w i ≥ 3
      · rw [if_pos hB]
        refine foldl_set_mem_val _ _ _ _ hig ?_ ?_
        · refine ⟨(i, thr + 1 / 100), List.mem_filterMap.mpr ⟨i, ?_, ?_⟩, rfl⟩
          · exact List.mem_filter.mpr
              ⟨List.mem_range.mpr hi, decide_eq_true hintp⟩
          · rw [if_neg hA, if_pos hB]
        · intro p hp hpi
          rcases cleanup_changes_spec g w h thr p hp with ⟨-, hcase⟩
          rcases hcase with ⟨hL, -, -⟩ | ⟨-, -, hval⟩
          · rw [hpi] at hL
            exact absurd hL hB.1
          · exact hval
      · rw [if_neg hB]
        refine foldl_set_not_mem _ _ _ (fun p hp hpi => ?_)
        rcases cleanup_changes_spec g w h thr p hp with ⟨-, hcase⟩
        rcases hcase with ⟨hL, hN, -⟩ | ⟨hL, hN, -⟩
        · rw [hpi] at hL hN
          exact hA ⟨hL, hN⟩
        · rw [hpi] at hL hN
          exact hB ⟨hL, hN⟩
  · rw [if_neg hint]
    refine foldl_set_not_mem _ _ _ (fun p hp hpi => ?_)
    have hs := cleanup_changes_spec g w h thr p hp
    rw [hpi] at hs
    exact hint ⟨hs.1.1, hs.1.2⟩

/-- Despeckle neighbours of an interior cell are in range. -/
theorem despeckleNbs_lt (w h i : ℕ) (_hi : i < w * h)
    (hint : despeckleInterior w h i) :
    ∀ n ∈ despeckleNbs w i, n < w * h := by
  obtain ⟨hx1, hx2, hy1, hy2⟩ := hint
  have hw3 : 3 ≤ w := by omega
  have hh3 : 3 ≤ h := by omega
  have hA3 : (i / w + 1) * w = (i / w) * w + w := by
    rw [Nat.add_mul, one_mul]
  have hA1 : (i / w) * w + w ≤ (h - 1) * w := by
    rw [← hA3]
    exact Nat.mul_le_mul_right w (by omega)
  have hA2 : (i / w - 1) * w ≤ (i / w) * w := Nat.mul_le_mul_right w (by omega)
  have hB : (h - 1) * w = h * w - w := by
    rw [Nat.sub_mul, one_mul]
  have hw_le : w ≤ h * w := Nat.le_mul_of_pos_left w (by omega)
  have hcomm : h * w = w * h := Nat.mul_comm h w
  intro n hn
  simp only [despeckleNbs, coordToIndex, List.mem_cons,
    List.not_mem_nil, or_false] at hn
  rcases hn with rfl | rfl | rfl | rfl <;> omega

/-- Filtering with a pointwise-weaker predicate keeps at least as many
elements. -/
theorem length_filter_mono {α} (l : List α) (p q : α → Bool)
    (hpq : ∀ x ∈ l, p x = true → q x = true) :
    (l.filter p).length ≤ (l.filter q).length := by
  induction l with
  | nil => simp
  | cons a t ih =>
    have hrec := ih (fun x hx hpx => hpq x (by simp [hx]) hpx)
    simp only [List.filter_cons]
    by_cases hpa : p a = true
    · rw [if_pos hpa, if_pos (hpq a (by simp) hpa)]
      simp only [List.length_cons]
      omega
    · rw [if_neg hpa]
      by_cases hqa : q a = true
      · rw [if_pos hqa]
        simp only [List.length_cons]
        omega
      · rw [if_neg hqa]
        exact hrec

/-- The inland-mask stage grid: landmass mask applied to the fBM grid,
then normalized — the grid the despeckle pass reads. -/
def inlandStageGrid (E : NoiseEnv) (M : JSMath) (w h : ℕ) (r : SR)
    (rough wc : ℚ) : Grid :=
  normalizeHeightmap
    (applyLandmassMask E M (generateFBM E.fbm w h rough) w h .inland r wc).1

/-- The water condition of an inland cell before despeckling: combined
lake noise below the affine water-coverage threshold. -/
def inlandWater (E : NoiseEnv) (w h : ℕ) (wc : ℚ) (i : ℕ) : Prop :=
  inlandCombined E w h (((min w h : ℕ) : ℚ) * (1 / 5)) i <
    wc * (12 / 5) - 6 / 5

/-- The water condition is monotone in the water coverage. -/
theorem inlandWater_mono (E : NoiseEnv) (w h : ℕ) (wc₁ wc₂ : ℚ) (i : ℕ)
    (hwc : wc₁ ≤ wc₂) :
    inlandWater E w h wc₁ i → inlandWater E w h wc₂ i := by
  intro hw
  unfold inlandWater at hw ⊢
  have := mul_le_mul_of_nonneg_right hwc (show (0 : ℚ) ≤ 12 / 5 by norm_num)
  linarith

/-- The inland heightmap pipeline, stage by stage. -/
theorem generateHeightmap_inland (E : NoiseEnv) (M : JSMath) (w h : ℕ)
    (seed : String) (sl rough wc : ℚ) :
    generateHeightmap E M w h seed .inland sl rough wc =
      cleanupArtifacts
        (inlandStageGrid E M w h (SR.fromString seed) rough wc) w h sl := rfl

/-- The stage grid is one value per cell. -/
theorem inlandStageGrid_length (E : NoiseEnv) (M : JSMath) (w h : ℕ)
    (r : SR) (rough wc : ℚ) :
    (inlandStageGrid E M w h r rough wc).length = w * h := by
  unfold inlandStageGrid normalizeHeightmap
  rw [List.length_map, applyLandmassMask_inland]
  rw [foldl_set_map_length (fun idx v => blendMaskCell
    (if inlandCombined E w h (((min w h : ℕ) : ℚ) * (1 / 5)) idx <
        wc * (12 / 5) - 6 / 5 then 0 else 1) v)]
  exact generateFBM_length _ _ _ _

/-- Stage-grid dichotomy, water side. -/
theorem inlandStageGrid_lt_iff (E : NoiseEnv) (M : JSMath) (w h : ℕ)
    (r : SR) (rough wc sl : ℚ) (i : ℕ) (hi : i < w * h)
    (hsl0 : 0 < sl) (hsl1 : sl < 2 / 5)
    (hfbm : ∀ v ∈ generateFBM E.fbm w h rough, (-1 : ℚ) ≤ v) :
    (gget (inlandStageGrid E M w h r rough wc) i < sl ↔
      inlandWater E w h wc i) := by
  unfold inlandStageGrid
  rw [inlandStage_getD E M w h r rough wc i hi]
  exact inlandStageVal_lt_iff E w h wc _ sl i hsl0 hsl1
    (hfbm _ (getD_mem_of_lt _ 0 i (by rw [generateFBM_length]; exact hi)))

/-- Stage-grid dichotomy, land side. -/
theorem inlandStageGrid_gt_iff (E : NoiseEnv) (M : JSMath) (w h : ℕ)
    (r : SR) (rough wc sl : ℚ) (i : ℕ) (hi : i < w * h)
    (hsl0 : 0 < sl) (hsl1 : sl < 2 / 5)
    (hfbm : ∀ v ∈ generateFBM E.fbm w h rough, (-1 : ℚ) ≤ v) :
    (gget (inlandStageGrid E M w h r rough wc) i > sl ↔
      ¬ inlandWater E w h wc i) := by
  have hh0 : (-1 : ℚ) ≤ gget (generateFBM E.fbm w h rough) i :=
    hfbm _ (getD_mem_of_lt _ 0 i (by rw [generateFBM_length]; exact hi))
  constructor
  · intro hgt hw
    have hlt := (inlandStageGrid_lt_iff E M w h r rough wc sl i hi hsl0 hsl1
      hfbm).mpr hw
    exact absurd hgt (not_lt.mpr (le_of_lt hlt))
  · intro hnw
    unfold inlandStageGrid
    rw [inlandStage_getD E M w h r rough wc i hi]
    exact inlandStageVal_gt E w h wc _ sl i hsl1 hh0 hnw

/-- Water condition of a cell of the final inland heightmap: on the
interior, despeckling sinks isolated land (at most one land neighbour)
and fills isolated water (at least three land neighbours); elsewhere the
stage condition is final. -/
theorem inland_final_water_iff (E : NoiseEnv) (M : JSMath) (w h : ℕ)
    (seed : String) (sl rough wc : ℚ) (i : ℕ) (hi : i < w * h)
    (hsl0 : 0 < sl) (hsl1 : sl < 2 / 5)
    (hfbm : ∀ v ∈ generateFBM E.fbm w h rough, (-1 : ℚ) ≤ v) :
    (gget (generateHeightmap E M w h seed .inland sl rough wc) i < sl ↔
      (if despeckleInterior w h i then
        (¬ inlandWater E w h wc i ∧
          nbLandCount (inlandStageGrid E M w h (SR.fromString seed) rough wc)
            sl w i ≤ 1) ∨
        (inlandWater E w h wc i ∧
          nbLandCount (inlandStageGrid E M w h (SR.fromString seed) rough wc)
            sl w i ≤ 2)
      else inlandWater E w h wc i)) := by
  rw [generateHeightmap_inland]
  rw [cleanup_getD _ w h sl i (by rw [inlandStageGrid_length]; exact hi)]
  have hlt := inlandStageGrid_lt_iff E M w h (SR.fromString seed) rough wc sl
    i hi hsl0 hsl1 hfbm
  have hgt := inlandStageGrid_gt_iff E M w h (SR.fromString seed) rough wc sl
    i hi hsl0 hsl1 hfbm
  by_cases hint : despeckleInterior w h i
  · rw [if_pos ⟨hi, hint⟩, if_pos hint]
    by_cases hA : gget (inlandStageGrid E M w h (SR.fromString seed) rough wc)
        i > sl ∧
        nbLandCount (inlandStageGrid E M w h (SR.fromString seed) rough wc)
          sl w i ≤ 1
    · rw [if_pos hA]
      refine ⟨fun _ => Or.inl ⟨hgt.mp hA.1, hA.2⟩, fun _ => by linarith⟩
    · by_cases hB : ¬(gget (inlandStageGrid E M w h (SR.fromString seed)
          rough wc) i > sl) ∧
          nbLandCount (inlandStageGrid E M w h (SR.fromString seed) rough wc)
            sl w i ≥ 3
      · rw [if_neg hA, if_pos hB]
        constructor
        · intro hcontra
          linarith
        · intro hcase
          exfalso
          rcases hcase with ⟨hnw, -⟩ | ⟨-, hn2⟩
          · exact hB.1 (hgt.mpr hnw)
          · omega
      · rw [if_neg hA, if_neg hB]
        rw [hlt]
        constructor
        · intro hw
          have hnb : nbLandCount (inlandStageGrid E M w h
              (SR.fromString seed) rough wc) sl w i < 3 := by
            by_contra hnn
            exact hB ⟨fun hgt' => absurd ((hlt).mpr hw)
              (not_lt.mpr (le_of_lt hgt')), by omega⟩
          exact Or.inr ⟨hw, by omega⟩
        · intro hcase
          rcases hcase with ⟨hnw, hn1⟩ | ⟨hw, -⟩
          · exact absurd ⟨hgt.mpr hnw, hn1⟩ hA
          · exact hw
  · rw [if_neg (fun hc => hint hc.2), if_neg hint]
    exact hlt

/-- Raising the water coverage cannot increase the land-neighbour count. -/
theorem nbLandCount_mono (E : NoiseEnv) (M : JSMath) (w h : ℕ) (r : SR)
    (rough sl wc₁ wc₂ : ℚ) (i : ℕ) (hwc : wc₁ ≤ wc₂)
    (hsl0 : 0 < sl) (hsl1 : sl < 2 / 5)
    (hfbm : ∀ v ∈ generateFBM E.fbm w h rough, (-1 : ℚ) ≤ v)
    (hnbs : ∀ n ∈ despeckleNbs w i, n < w * h) :
    nbLandCount (inlandStageGrid E M w h r rough wc₂) sl w i ≤
      nbLandCount (inlandStageGrid E M w h r rough wc₁) sl w i := by
  unfold nbLandCount
  refine length_filter_mono _ _ _ (fun n hn hp => ?_)
  have h2 : gget (inlandStageGrid E M w h r rough wc₂) n > sl :=
    of_decide_eq_true hp
  have hnw2 : ¬ inlandWater E w h wc₂ n :=
    (inlandStageGrid_gt_iff E M w h r rough wc₂ sl n (hnbs n hn) hsl0 hsl1
      hfbm).mp h2
  have hnw1 : ¬ inlandWater E w h wc₁ n :=
    fun hw1 => hnw2 (inlandWater_mono E w h wc₁ wc₂ n hwc hw1)
  exact decide_eq_true
    ((inlandStageGrid_gt_iff E M w h r rough wc₁ sl n (hnbs n hn) hsl0 hsl1
      hfbm).mpr hnw1)

/-- Raising the water coverage keeps every final inland ocean cell an
ocean cell. -/
theorem inland_water_pointwise (E : NoiseEnv) (M : JSMath) (w h : ℕ)
    (seed : String) (sl rough wc₁ wc₂ : ℚ) (i : ℕ) (hi : i < w * h)
    (hwc : wc₁ ≤ wc₂) (hsl0 : 0 < sl) (hsl1 : sl < 2 / 5)
    (hfbm : ∀ v ∈ generateFBM E.fbm w h rough, (-1 : ℚ) ≤ v) :
    gget (generateHeightmap E M w h seed .inland sl rough wc₁) i < sl →
      gget (generateHeightmap E M w h seed .inland sl rough wc₂) i < sl := by
  rw [inland_final_water_iff E M w h seed sl rough wc₁ i hi hsl0 hsl1 hfbm,
    inland_final_water_iff E M w h seed sl rough wc₂ i hi hsl0 hsl1 hfbm]
  by_cases hint : despeckleInterior w h i
  · rw [if_pos hint, if_pos hint]
    have hnb := nbLandCount_mono E M w h (SR.fromString seed) rough sl wc₁ wc₂
      i hwc hsl0 hsl1 hfbm (despeckleNbs_lt w h i hi hint)
    intro hcase
    rcases hcase with ⟨hnw, hn⟩ | ⟨hw, hn⟩
    · by_cases hw2 : inlandWater E w h wc₂ i
      · exact Or.inr ⟨hw2, by omega⟩
      · exact Or.inl ⟨hw2, by omega⟩
    · exact Or.inr ⟨inlandWater_mono E w h wc₁ wc₂ i hwc hw, by omega⟩
  · rw [if_neg hint, if_neg hint]
    exact inlandWater_mono E w h wc₁ wc₂ i hwc

/-- Index-pointwise filter-count comparison for equal-length lists. -/
theorem length_filter_le_of_pointwise (p q : ℚ → Bool) :
    ∀ (l₁ l₂ : List ℚ), l₁.length = l₂.length →
      (∀ i, i < l₁.length → p (l₁.getD i 0) = true → q (l₂.getD i 0) = true) →
      (l₁.filter p).length ≤ (l₂.filter q).length := by
  intro l₁
  induction l₁ with
  | nil => intro l₂ _ _; simp
  | cons a t ih =>
    intro l₂ hlen hpt
    cases l₂ with
    | nil => simp at hlen
    | cons b t₂ =>
      simp only [List.filter_cons]
      have h0 := hpt 0 (by simp)
      have hrec := ih t₂ (by simpa using hlen)
        (fun i hi hp => hpt (i + 1) (by simp only [List.length_cons]; omega) hp)
      by_cases hpa : p a = true
      · have h0' : q b = true := h0 hpa
        rw [if_pos hpa, if_pos h0']
        simp only [List.length_cons]
        omega
      · rw [if_neg hpa]
        by_cases hqb : q b = true
        · rw [if_pos hqb]
          simp only [List.length_cons]
          omega
        · rw [if_neg hqb]
          exact hrec

/-- The final inland ocean-cell count is monotone in the water coverage. -/
theorem inland_oceanCells_mono (E : NoiseEnv) (M : JSMath) (w h : ℕ)
    (seed : String) (sl rough wc₁ wc₂ : ℚ) (hwc : wc₁ ≤ wc₂)
    (hsl0 : 0 < sl) (hsl1 : sl < 2 / 5)
    (hfbm : ∀ v ∈ generateFBM E.fbm w h rough, (-1 : ℚ) ≤ v) :
    oceanCells (generateHeightmap E M w h seed .inland sl rough wc₁) sl ≤
      oceanCells (generateHeightmap E M w h seed .inland sl rough wc₂) sl := by
  have hlen1 : (generateHeightmap E M w h seed .inland sl rough wc₁).length =
      w * h := by
    rw [generateHeightmap_inland, cleanupArtifacts_length,
      inlandStageGrid_length]
  have hlen2 : (generateHeightmap E M w h seed .inland sl rough wc₂).length =
      w * h := by
    rw [generateHeightmap_inland, cleanupArtifacts_length,
      inlandStageGrid_length]
  unfold oceanCells
  refine length_filter_le_of_pointwise _ _ _ _ (by rw [hlen1, hlen2])
    (fun i hi hp => ?_)
  rw [hlen1] at hi
  exact decide_eq_true (inland_water_pointwise E M w h seed sl rough wc₁ wc₂
    i hi hwc hsl0 hsl1 hfbm (of_decide_eq_true hp))

/-- C9 (amended): for the inland map type, with a sea level in the open
interval (0, 0.4) and fBM values respecting the noise floor -1, the
fraction of final heightmap cells strictly below sea level is
non-decreasing in the waterCoverage parameter. (For the great-lake type
the claimed monotonicity is false.) -/
theorem c9_water_fraction_amended (E : NoiseEnv) (M : JSMath) (w h : ℕ)
    (seed : String) (sl rough wc₁ wc₂ : ℚ) (hwc : wc₁ ≤ wc₂)
    (hsl0 : 0 < sl) (hsl1 : sl < 2 / 5)
    (hfbm : ∀ v ∈ generateFBM E.fbm w h rough, (-1 : ℚ) ≤ v) :
    (oceanCells (generateHeightmap E M w h seed .inland sl rough wc₁) sl : ℚ) /
        ((w * h : ℕ) : ℚ) ≤
      (oceanCells (generateHeightmap E M w h seed .inland sl rough wc₂) sl : ℚ) /
        ((w * h : ℕ) : ℚ) := by
  have hcount := inland_oceanCells_mono E M w h seed sl rough wc₁ wc₂ hwc
    hsl0 hsl1 hfbm
  rcases Nat.eq_zero_or_pos (w * h) with hwh | hwh
  · rw [hwh]
    simp
  · have hpos : (0 : ℚ) < ((w * h : ℕ) : ℚ) := by exact_mod_cast hwh
    rw [div_le_div_iff₀ hpos hpos]
    exact mul_le_mul_of_nonneg_right (by exact_mod_cast hcount)
      (le_of_lt hpos)

/-- C9 witness: the all-zero noise environment on a 4×4 inland map with
water coverages 0 ≤ 1. -/
theorem c9_witness :
    ((0 : ℚ) ≤ 1 ∧ (0 : ℚ) < 7 / 20 ∧ (7 / 20 : ℚ) < 2 / 5 ∧
      (∀ v ∈ generateFBM zeroNoiseEnv.fbm 4 4 (1 / 2), (-1 : ℚ) ≤ v)) ∧
      (oceanCells (generateHeightmap zeroNoiseEnv demoMath 4 4 "a" .inland
          (7 / 20) (1 / 2) 0) (7 / 20) : ℚ) / ((4 * 4 : ℕ) : ℚ) ≤
        (oceanCells (generateHeightmap zeroNoiseEnv demoMath 4 4 "a" .inland
          (7 / 20) (1 / 2) 1) (7 / 20) : ℚ) / ((4 * 4 : ℕ) : ℚ) :=
  ⟨⟨by norm_num, by norm_num, by norm_num, by decide⟩,
   c9_water_fraction_amended zeroNoiseEnv demoMath 4 4 "a" (7 / 20) (1 / 2)
     0 1 (by norm_num) (by norm_num) (by norm_num) (by decide)⟩

/-! ## Determinism (C1) -/

/-- C1: with a fixed, nonempty seed string the pipeline is a pure function
of the configuration: the ambient entropy stream (the platform
`Math.random` used only by the empty-seed fallback of `generateSeed`)
never influences the output, so two runs with the same seed and config
produce bit-identical heightmap, temperature, moisture and biome grids and
identical river and settlement lists. -/
theorem c1_determinism (E : NoiseEnv) (M : JSMath) (e₁ e₂ : ℕ → ℚ)
    (cfg : MapConfig) (hseed : cfg.seed ≠ "") :
    generateMap E M e₁ cfg = generateMap E M e₂ cfg := by
  unfold generateMap resolveConfig
  simp only [if_neg hseed]

/-- C1 witness: the demo configuration carries the nonempty seed "x". -/
theorem c1_witness :
    invalidConfig.seed ≠ "" ∧
      generateMap zeroNoiseEnv demoMath (fun _ => 0) invalidConfig =
        generateMap zeroNoiseEnv demoMath (fun _ => 1) invalidConfig :=
  ⟨by decide,
   c1_determinism zeroNoiseEnv demoMath (fun _ => 0) (fun _ => 1)
     invalidConfig (by decide)⟩

/-- C2 witness: a concrete math record with a nonnegative constant
exponential discharges the hypothesis. -/
theorem c2_witness :
    (∀ q, 0 ≤ demoMath.exp q) ∧
      (Bounded01 (generateMap zeroNoiseEnv demoMath (fun _ => 0) invalidConfig).heightmap ∧
       Bounded01 (generateMap zeroNoiseEnv demoMath (fun _ => 0) invalidConfig).temperature ∧
       Bounded01 (generateMap zeroNoiseEnv demoMath (fun _ => 0) invalidConfig).moisture ∧
       (∀ b ∈ (generateMap zeroNoiseEnv demoMath (fun _ => 0) invalidConfig).biomes, b ≤ 10)) :=
  ⟨fun _ => by norm_num [demoMath],
   c2_range_invariants zeroNoiseEnv demoMath (fun _ => 0) invalidConfig
     (fun _ => by norm_num [demoMath])⟩

end MapGen
